import Mathlib

/-!
# Tomahawk Jabber SIP plugin: signalling core

A shallow embedding of `src/sip/jabber/jabber.cpp` (class `JabberPlugin`).

The plugin is a single-threaded event handler.  Every slot of the class becomes a
function from the plugin state (and the arguments of the slot) to the new plugin
state together with the list of *effects* the slot produced, in program order:
Qt signals emitted by the plugin and calls made on its collaborators (the Jreen
client, the roster, the confirmation dialogs).  Log output (`qDebug`, `tLog`) is
not an effect.  `Q_ASSERT` is taken with its release-build meaning (no operation),
`tr` as the identity on its source text.
-/

namespace Tomahawk

/-! ## Library types the plugin works with -/

/-- A Jabber address (`Jreen::JID`).  Two addresses are equal when their full
strings are equal, so the address is represented by its full string
`node@domain/resource`. -/
structure JID where
  full : String
deriving DecidableEq, Repr

/-- The bare address `node@domain`: the full string up to the first slash. -/
def JID.bare (j : JID) : String :=
  String.mk (j.full.toList.takeWhile (fun c => c != '/'))

/-- The resource: what follows the first slash of the full string. -/
def JID.resource (j : JID) : String :=
  String.mk ((j.full.toList.dropWhile (fun c => c != '/')).drop 1)

/-- A default-constructed `Jreen::JID` is the empty address. -/
instance : Inhabited JID := ⟨JID.mk ""⟩

/-- The enumeration `Jreen::Presence::Type`; `Invalid` is -1 and `Unavailable` is 0. -/
inductive PresenceType where
  | Invalid
  | Unavailable
  | Subscribe
  | Unsubscribe
  | Subscribed
  | Unsubscribed
  | Probe
  | Error
  | Available
  | Chat
  | Away
  | DND
  | XA
deriving DecidableEq, Repr

/-- A value-initialised `Jreen::Presence::Type` is the enumerator with value 0. -/
instance : Inhabited PresenceType := ⟨PresenceType.Unavailable⟩

/-- The enumeration `Jreen::Client::DisconnectReason`.  The ten named reasons are the
ones the plugin switches over; `Other` stands for any further enumerator of the
library, which takes the `default:` branch of those switches. -/
inductive DisconnectReason where
  | User
  | HostUnknown
  | ItemNotFound
  | AuthorizationError
  | RemoteStreamError
  | RemoteConnectionFailed
  | InternalServerError
  | SystemShutdown
  | Conflict
  | Unknown
  | Other (code : Nat)
deriving DecidableEq, Repr

/-- The enumeration `Jreen::RosterItem::SubscriptionType`. -/
inductive SubscriptionType where
  | Invalid
  | From
  | To
  | Both
  | Remove
  | None
deriving DecidableEq, Repr

/-- The part of a `Jreen::RosterItem` the plugin reads. -/
structure RosterItem where
  subscription : SubscriptionType
  ask : String
deriving DecidableEq, Repr

/-- The capability extension of a presence (`Jreen::Capabilities`). -/
structure Capabilities where
  node : String
  ver : String
deriving DecidableEq, Repr

/-- The part of a `Jreen::Presence` stanza the plugin reads: the sender, the
subtype, whether an error condition is attached and the capability payload. -/
structure Presence where
  from_ : JID
  subtype : PresenceType
  error : Bool
  caps : Option Capabilities
deriving DecidableEq, Repr

/-- The state of the plugin, `SipPlugin::ConnectionState`. -/
inductive ConnectionState where
  | Disconnected
  | Connecting
  | Connected
  | Disconnecting
deriving DecidableEq, Repr

/-- The error kinds of `SipPlugin` the plugin raises. -/
inductive SipErrorState where
  | AuthError
  | ConnectionError
deriving DecidableEq, Repr

/-- The purpose tag stored in an `IQReply` (`reply->setData(...)`). -/
inductive IqContext where
  | NoContext
  | RequestDisco
  | RequestedDisco
  | SipMessageSent
  | RequestedVCard
  | RequestVersion
deriving DecidableEq, Repr

/-- The enumeration `Jreen::Message::Type`. -/
inductive MessageType where
  | Chat
  | Error
  | Groupchat
  | Headline
  | Normal
  | Invalid
deriving DecidableEq, Repr

/-- The part of a `Jreen::Message` stanza the plugin reads. -/
structure Message where
  from_ : JID
  body : String
  subtype : MessageType
deriving DecidableEq, Repr

/-- Modelled from the spec: the class `TomahawkSipMessage` (tomahawksipmessage.h is
not part of the sources at hand), the wire message of section 6: the flag `visible`
and the four fields `ip`, `port`, `uniqname`, `key`, which mean something only when
`visible` holds. -/
structure TomahawkSipMessage where
  ip : String
  port : Int
  uniqname : String
  key : String
  visible : Bool
deriving DecidableEq, Repr

/-- Modelled from the spec: the constructor `TomahawkSipMessage( ip, port, uniqname,
key )` of a visible message. -/
def TomahawkSipMessage.visibleWith (ip : String) (port : Int) (uniqname key : String) :
    TomahawkSipMessage :=
  { ip := ip, port := port, uniqname := uniqname, key := key, visible := true }

/-- Modelled from the spec: the constructor `TomahawkSipMessage()` of a message that
is not visible; its four fields are left out of the wire form. -/
def TomahawkSipMessage.invisible : TomahawkSipMessage :=
  { ip := "", port := 0, uniqname := "", key := "", visible := false }

/-- Modelled from the spec: the class `SipInfo` (libtomahawk, not part of the sources
at hand), the record of section 3.  Every field is unset in a default-constructed
`SipInfo` and set by its setter. -/
structure SipInfo where
  visible : Option Bool := none
  host : Option String := none
  port : Option Int := none
  uniqname : Option String := none
  key : Option String := none
deriving DecidableEq, Repr

/-- Modelled from the spec: `SipInfo::isValid` (section 3): a `SipInfo` is valid only
if either `visible` is false, or all of host, port, unique name and key are present.
A `SipInfo` whose `visible` was never set is the failed decoding and not valid. -/
def SipInfo.isValid (info : SipInfo) : Bool :=
  match info.visible with
  | none => false
  | some false => true
  | some true => info.host.isSome && info.port.isSome && info.uniqname.isSome && info.key.isSome

/-- The payload `Jreen::Disco::Info` of a discovery reply: the advertised features. -/
structure DiscoInfo where
  features : List String
deriving DecidableEq, Repr

/-- The payload `Jreen::SoftwareVersion` of a version reply. -/
structure SoftwareVersion where
  name : String
  os : String
  version : String
deriving DecidableEq, Repr

/-- The part of an incoming `Jreen::IQ` the plugin reads: the sender and, for each
payload type it asks for, the payload of that type if the stanza has one. -/
structure IQ where
  from_ : JID
  discoInfo : Option DiscoInfo := none
  softwareVersion : Option SoftwareVersion := none
  sipMessage : Option TomahawkSipMessage := none
deriving DecidableEq, Repr

/-- The extension carried by an IQ the plugin sends. -/
inductive IqPayload where
  | SoftwareVersion
  | DiscoInfo (node : String)
  | SipMessage (sipMessage : TomahawkSipMessage)
deriving DecidableEq, Repr

/-! ## `QVariant` -/

/-- A `QVariant` as the JSON parser produces it: nothing (also JSON null), a boolean,
an integer, a string, or a list or map. -/
inductive QVariant where
  | Invalid
  | ofBool (b : Bool)
  | ofInt (n : Int)
  | ofString (s : String)
  | Container
deriving DecidableEq, Repr

/-- The conversion `toInt()` of a 64-bit integer: the value cut to 32 bits, signed. -/
def toInt32 (n : Int) : Int := (n + 2147483648) % 4294967296 - 2147483648

namespace QVariant

/-- The conversion `QVariant::toBool()`: a string counts as true unless it is empty,
"0" or "false"; what cannot be converted gives false. -/
def toBool : QVariant → Bool
  | ofBool b => b
  | ofInt n => n != 0
  | ofString s => !(s.isEmpty || s.toLower == "0" || s.toLower == "false")
  | _ => false

/-- The conversion `QVariant::toString()`; what cannot be converted gives the empty
string. -/
def toString : QVariant → String
  | ofBool b => if b then "true" else "false"
  | ofInt n => ToString.toString n
  | ofString s => s
  | _ => ""

/-- The conversion `QVariant::toInt()`; what cannot be converted gives 0. -/
def toInt : QVariant → Int
  | ofBool b => if b then 1 else 0
  | ofInt n => toInt32 n
  | ofString s => toInt32 (s.toInt?.getD 0)
  | _ => 0

end QVariant

/-- A `QVariantMap`, the parsed form of a JSON object. -/
def QVariantMap : Type := List (String × QVariant)

instance : DecidableEq QVariantMap := inferInstanceAs (DecidableEq (List (String × QVariant)))

instance : Repr QVariantMap := inferInstanceAs (Repr (List (String × QVariant)))

/-- The lookup `m[ key ]`: the value of the key, or an invalid `QVariant`. -/
def QVariantMap.get : QVariantMap → String → QVariant
  | [], _ => QVariant.Invalid
  | (k, v) :: m, key => if k = key then v else QVariantMap.get m key

/-! ## `QHash` -/

/-- A `QHash<K, V>` as an association list; the first entry of a key is the one
that counts. -/
def QHash (K V : Type) : Type := List (K × V)

instance {K V : Type} [DecidableEq K] [DecidableEq V] : DecidableEq (QHash K V) :=
  inferInstanceAs (DecidableEq (List (K × V)))

instance {K V : Type} [Repr K] [Repr V] : Repr (QHash K V) :=
  inferInstanceAs (Repr (List (K × V)))

namespace QHash

variable {K V : Type} [DecidableEq K]

/-- The empty hash, the result of `clear()`. -/
def empty : QHash K V := ([] : List (K × V))

/-- Membership test `contains( key )`. -/
def contains : QHash K V → K → Bool
  | [], _ => false
  | (k', _) :: m, k => if k' = k then true else contains m k

/-- Lookup `value( key )`: the stored value, or a default-constructed one. -/
def value [Inhabited V] : QHash K V → K → V
  | [], _ => default
  | (k', v) :: m, k => if k' = k then v else value m k

/-- Replacement `insert( key, value )`, also what `operator[]( key ) = value` does. -/
def insert : QHash K V → K → V → QHash K V
  | [], k, v => [(k, v)]
  | (k', v') :: m, k, v => if k' = k then (k', v) :: m else (k', v') :: insert m k v

/-- The list `keys()`. -/
def keys (m : QHash K V) : List K := List.map Prod.fst m

/-- The list `values()`. -/
def values (m : QHash K V) : List V := List.map Prod.snd m

/-- Reverse lookup `key( value )`: the first key stored with the value, or a
default-constructed key. -/
def key [DecidableEq V] [Inhabited K] : QHash K V → V → K
  | [], _ => default
  | (k, v') :: m, v => if v' = v then k else key m v

/-- Removal `remove( key )`. -/
def remove : QHash K V → K → QHash K V
  | [], _ => []
  | (k', v) :: m, k => if k' = k then remove m k else (k', v) :: remove m k

end QHash

/-! ## Effects -/

/-- What a slot does to the outside: the signals it emits and the calls it makes
on the client, the roster and the dialogs. -/
inductive Effect where
  /-- Signal `stateChanged( state )`. -/
  | stateChanged (state : ConnectionState)
  /-- Signal `error( code, message )`. -/
  | error (code : SipErrorState) (msg : String)
  /-- Signal `peerOnline( fulljid )`. -/
  | peerOnline (fulljid : String)
  /-- Signal `peerOffline( fulljid )`. -/
  | peerOffline (fulljid : String)
  /-- Signal `jidChanged( fulljid )`. -/
  | jidChanged (fulljid : String)
  /-- Signal `avatarReceived`: with the sender, or `none` for the own avatar. -/
  | avatarReceived (sender : Option String)
  /-- Signal `addMenu( m_menu )`. -/
  | addMenu
  /-- Signal `removeMenu( m_menu )`. -/
  | removeMenu
  /-- The call `QTimer::singleShot( ms, m_client, SLOT( connectToServer() ) )`. -/
  | connectToServer (ms : Nat)
  /-- The call `m_client->disconnectFromServer( force )`. -/
  | disconnectFromServer (force : Bool)
  /-- The call `m_client->setPresence( type, text, priority )`. -/
  | setPresence (type : PresenceType) (text : String) (priority : Int)
  /-- The call `m_client->setPingInterval( ms )`. -/
  | setPingInterval (ms : Nat)
  /-- The call `m_roster->load()`. -/
  | rosterLoad
  /-- The call `m_client->send( iq )` of a Get request, with the tag put on its reply. -/
  | sendIq (to_ : JID) (payload : IqPayload) (context : IqContext)
  /-- The call `m_roster->allowSubscription( jid, ok )`. -/
  | allowSubscription (jid : JID) (ok : Bool)
  /-- The call `confirmBox->open( ... )` on a newly created `QMessageBox`. -/
  | confirmBoxOpen (box : Nat) (text : String)
  /-- The call `m_client->send( iq )` of a Set request, with the tag put on its reply. -/
  | sendIqSet (to_ : JID) (payload : IqPayload) (context : IqContext)
  /-- The call `m_client->send( Jreen::Message( type, to, body ) )`. -/
  | sendMessage (type : MessageType) (to_ : JID) (body : String)
  /-- The call `iq.accept()` on the incoming IQ. -/
  | iqAccept
  /-- Signal `sipInfoReceived( from, info )`. -/
  | sipInfoReceived (sender : String) (info : SipInfo)
  /-- Signal `msgReceived( from, msg )`. -/
  | msgReceived (sender : String) (msg : String)
  /-- Signal `softwareVersionReceived( from, versionString )`. -/
  | softwareVersionReceived (sender : String) (versionString : String)
  /-- The call `m_roster->subscribe( jid, msg, name, groups )`. -/
  | rosterSubscribe (jid : String) (msg : String) (name : String) (groups : List String)
deriving DecidableEq, Repr

/-! ## Plugin state -/

/-- What the plugin observes of its `Jreen::Client`, and the connection parameters
it writes to it. -/
structure Client where
  isConnected : Bool := false
  jid : JID := ⟨""⟩
  password : String := ""
  server : String := ""
  port : Int := -1
deriving DecidableEq, Repr

/-- The keys of this plugin in `TomahawkSettings`; a key that was never written reads
as the empty string, the port as the default 5222. -/
structure TomahawkSettings where
  username : String := ""
  password : String := ""
  server : String := ""
  port : Option Int := none
deriving DecidableEq, Repr

/-- The members of `JabberPlugin` the slots below read or write.  `ENABLE_HEADLESS`
is the build switch of the same name.  `m_avatarManager` lists the bare addresses
with a non-null avatar, `m_menu` tells whether the menu exists, and `nextBox` is
the identity the next `new QMessageBox` gets.  `settings` holds what
`TomahawkSettings::instance()` stores for this plugin. -/
structure JabberPlugin where
  ENABLE_HEADLESS : Bool := false
  m_client : Client := {}
  m_state : ConnectionState := ConnectionState.Disconnected
  m_peers : QHash JID PresenceType := QHash.empty
  m_subscriptionConfirmBoxes : QHash JID Nat := QHash.empty
  m_currentResource : String := ""
  m_menu : Bool := false
  m_avatarManager : List String := []
  nextBox : Nat := 0
  m_currentUsername : String := ""
  m_currentPassword : String := ""
  m_currentServer : String := ""
  m_currentPort : Int := 5222
  settings : TomahawkSettings := {}
deriving DecidableEq, Repr

/-! ## Peer registry -/

/-- The function `JabberPlugin::presenceMeansOnline`. -/
def presenceMeansOnline (p : PresenceType) : Bool :=
  match p with
  | PresenceType.Invalid => false
  | PresenceType.Unavailable => false
  | PresenceType.Error => false
  | _ => true

/-- The slot `JabberPlugin::onNewAvatar`: nothing in a headless build or outside a
Connected session; otherwise one `avatarReceived` per tracked peer of that bare
address, then one for the address itself (the own avatar when it is ours). -/
def onNewAvatar (s : JabberPlugin) (jid : String) : JabberPlugin × List Effect :=
  if s.ENABLE_HEADLESS then (s, [])
  else if s.m_state != ConnectionState.Connected then (s, [])
  else
    let peers := s.m_peers.keys
    let perPeer := (peers.filter (fun peer => peer.bare == jid)).map
      (fun peer => Effect.avatarReceived (some peer.full))
    let own := if jid == s.m_client.jid.bare then Effect.avatarReceived none
      else Effect.avatarReceived (some jid)
    (s, perPeer ++ [own])

/-- The function `JabberPlugin::handlePeerStatus`. -/
def handlePeerStatus (s : JabberPlugin) (jid : JID) (presenceType : PresenceType) :
    JabberPlugin × List Effect :=
  let fulljid := jid.full
  -- "going offline" event
  if !presenceMeansOnline presenceType &&
      (!s.m_peers.contains jid || presenceMeansOnline (s.m_peers.value jid)) then
    ({ s with m_peers := s.m_peers.insert jid presenceType }, [Effect.peerOffline fulljid])
  -- "coming online" event
  else if presenceMeansOnline presenceType &&
      (!s.m_peers.contains jid || !presenceMeansOnline (s.m_peers.value jid)) then
    let s1 := { s with m_peers := s.m_peers.insert jid presenceType }
    let avatar :=
      if !s1.ENABLE_HEADLESS && s1.m_avatarManager.contains jid.bare then onNewAvatar s1 jid.bare
      else (s1, [])
    -- request software version
    (avatar.1, [Effect.peerOnline fulljid] ++ avatar.2 ++
      [Effect.sendIq jid IqPayload.SoftwareVersion IqContext.RequestVersion])
  else
    ({ s with m_peers := s.m_peers.insert jid presenceType }, [])

/-- A run of `handlePeerStatus( jid, p )` over the presence types `ps`, in order. -/
def handlePeerStatusSeq (jid : JID) : JabberPlugin → List PresenceType → JabberPlugin × List Effect
  | s, [] => (s, [])
  | s, p :: ps =>
    let r := handlePeerStatus s jid p
    let r2 := handlePeerStatusSeq jid r.1 ps
    (r2.1, r.2 ++ r2.2)

/-- The loop `Q_FOREACH( peer, peers ) handlePeerStatus( peer, presenceType )`. -/
def handlePeerStatusEach (presenceType : PresenceType) :
    JabberPlugin → List JID → JabberPlugin × List Effect
  | s, [] => (s, [])
  | s, peer :: peers =>
    let r := handlePeerStatus s peer presenceType
    let r2 := handlePeerStatusEach presenceType r.1 peers
    (r2.1, r.2 ++ r2.2)

/-! ## Connection lifecycle -/

/-- The function `JabberPlugin::addMenuHelper`. -/
def addMenuHelper (s : JabberPlugin) : JabberPlugin × List Effect :=
  if s.ENABLE_HEADLESS then (s, [])
  else if !s.m_menu then ({ s with m_menu := true }, [Effect.addMenu])
  else (s, [])

/-- The function `JabberPlugin::removeMenuHelper`. -/
def removeMenuHelper (s : JabberPlugin) : JabberPlugin × List Effect :=
  if s.ENABLE_HEADLESS then (s, [])
  else if s.m_menu then ({ s with m_menu := false }, [Effect.removeMenu])
  else (s, [])

/-- The function `JabberPlugin::connectPlugin`; the third component is its return
value.  Wiring the socket's error signal to the logging slot `onError` is no effect. -/
def connectPlugin (s : JabberPlugin) (_startup : Bool) : JabberPlugin × List Effect × Bool :=
  if s.m_client.isConnected then (s, [], true)
  else
    ({ s with m_state := ConnectionState.Connecting },
      [Effect.connectToServer 1000, Effect.stateChanged ConnectionState.Connecting], true)

/-- The function `JabberPlugin::disconnectPlugin`. -/
def disconnectPlugin (s : JabberPlugin) : JabberPlugin × List Effect :=
  if !s.m_client.isConnected then
    if s.m_state != ConnectionState.Disconnected then
      ({ s with m_state := ConnectionState.Disconnected },
        [Effect.stateChanged ConnectionState.Disconnected])
    else (s, [])
  else
    ({ s with m_peers := QHash.empty, m_state := ConnectionState.Disconnecting },
      [Effect.disconnectFromServer true, Effect.stateChanged ConnectionState.Disconnecting])

/-- The slot `JabberPlugin::onConnect`. -/
def onConnect (s : JabberPlugin) : JabberPlugin × List Effect :=
  let r1 : JabberPlugin × List Effect :=
    if s.m_client.jid.resource != s.m_currentResource then
      ({ s with m_currentResource := s.m_client.jid.resource },
        [Effect.jidChanged s.m_client.jid.full])
    else (s, [])
  let s2 := { r1.1 with m_state := ConnectionState.Connected }
  let r3 := addMenuHelper s2
  (r3.1, r1.2 ++
    [Effect.setPresence PresenceType.XA "Got Tomahawk? http://gettomahawk.com" (-127),
     Effect.setPingInterval 1000,
     Effect.rosterLoad,
     Effect.stateChanged ConnectionState.Connected] ++ r3.2)

/-- The function `JabberPlugin::errorMessage`; the third component is the returned
text.  Past the switch, which only the `default:` branch leaves, the function sets
the state to Disconnected, emits `stateChanged` and returns the empty string. -/
def errorMessage (s : JabberPlugin) (reason : DisconnectReason) :
    JabberPlugin × List Effect × String :=
  match reason with
  | DisconnectReason.User => (s, [], "User Interaction")
  | DisconnectReason.HostUnknown => (s, [], "Host is unknown")
  | DisconnectReason.ItemNotFound => (s, [], "Item not found")
  | DisconnectReason.AuthorizationError => (s, [], "Authorization Error")
  | DisconnectReason.RemoteStreamError => (s, [], "Remote Stream Error")
  | DisconnectReason.RemoteConnectionFailed => (s, [], "Remote Connection failed")
  | DisconnectReason.InternalServerError => (s, [], "Internal Server Error")
  | DisconnectReason.SystemShutdown => (s, [], "System shutdown")
  | DisconnectReason.Conflict => (s, [], "Conflict")
  | DisconnectReason.Unknown => (s, [], "Unknown")
  | DisconnectReason.Other _ =>
    ({ s with m_state := ConnectionState.Disconnected },
      [Effect.stateChanged ConnectionState.Disconnected], "")

/-- The `switch( reason )` that opens `JabberPlugin::onDisconnect`. -/
def onDisconnectSwitch (s : JabberPlugin) (reason : DisconnectReason) :
    JabberPlugin × List Effect :=
  let authError :=
    let m := errorMessage s reason
    (m.1, m.2.1 ++ [Effect.error SipErrorState.AuthError m.2.2])
  let connectionError :=
    let m := errorMessage s reason
    (m.1, m.2.1 ++ [Effect.error SipErrorState.ConnectionError m.2.2])
  match reason with
  | DisconnectReason.User => (s, [])
  | DisconnectReason.AuthorizationError => authError
  | DisconnectReason.HostUnknown => connectionError
  | DisconnectReason.ItemNotFound => connectionError
  | DisconnectReason.RemoteStreamError => connectionError
  | DisconnectReason.RemoteConnectionFailed => connectionError
  | DisconnectReason.InternalServerError => connectionError
  | DisconnectReason.SystemShutdown => connectionError
  | DisconnectReason.Conflict => connectionError
  | DisconnectReason.Unknown => connectionError
  | DisconnectReason.Other _ => (s, [])

/-- The slot `JabberPlugin::onDisconnect`. -/
def onDisconnect (s : JabberPlugin) (reason : DisconnectReason) : JabberPlugin × List Effect :=
  let r1 := onDisconnectSwitch s reason
  let s2 := { r1.1 with m_state := ConnectionState.Disconnected }
  let r3 := removeMenuHelper s2
  let r4 := handlePeerStatusEach PresenceType.Unavailable r3.1 r3.1.m_peers.keys
  (r4.1, r1.2 ++ [Effect.stateChanged ConnectionState.Disconnected] ++ r3.2 ++ r4.2)

/-- The plugin state `onDisconnect` runs its loop from: the state is Disconnected
and the registry is still the one of the call. -/
def beforeLoop (s : JabberPlugin) (reason : DisconnectReason) : JabberPlugin :=
  (removeMenuHelper
    { (onDisconnectSwitch s reason).1 with m_state := ConnectionState.Disconnected }).1

/-! ## Subscription requests -/

/-- The text of the confirmation dialog for a requester. -/
def confirmBoxText (bare : String) : String :=
  "Do you want to grant <b>" ++ bare ++ "</b> access to your Collection?"

/-- The slot `JabberPlugin::onSubscriptionReceived`; `item` is `none` for a null
roster item pointer. -/
def onSubscriptionReceived (s : JabberPlugin) (item : Option RosterItem) (presence : Presence) :
    JabberPlugin × List Effect :=
  if s.m_state != ConnectionState.Connected then (s, [])
  -- don't do anything if the contact is already subscribed to us
  else if presence.subtype != PresenceType.Subscribe ||
      (match item with
       | some it => it.subscription == SubscriptionType.From ||
                    it.subscription == SubscriptionType.Both
       | none => false) then (s, [])
  -- check if the requester is already on the roster
  else if (match item with
       | some it => it.subscription == SubscriptionType.To ||
                    (it.subscription == SubscriptionType.None && !it.ask.isEmpty)
       | none => false) then
    (s, [Effect.allowSubscription presence.from_ true])
  else if s.ENABLE_HEADLESS then (s, [])
  else
    -- preparing the confirm box for the user
    let confirmBox := s.nextBox
    ({ s with
        nextBox := s.nextBox + 1
        m_subscriptionConfirmBoxes := s.m_subscriptionConfirmBoxes.insert presence.from_ confirmBox },
      [Effect.confirmBoxOpen confirmBox (confirmBoxText presence.from_.bare)])

/-- The value `QMessageBox::Yes` of `QMessageBox::StandardButton`. -/
def QMessageBox_Yes : Int := 16384

/-- The function `JabberPlugin::defaultSuffix`. -/
def defaultSuffix : String := "@jabber.org"

/-- The function `JabberPlugin::addContact`. -/
def addContact (s : JabberPlugin) (jid : String) (msg : String) : JabberPlugin × List Effect :=
  let realJid := if !jid.toList.contains '@' then jid ++ defaultSuffix else jid
  (s, [Effect.rosterSubscribe realJid msg realJid ["Tomahawk"]])

/-- The slot `JabberPlugin::onSubscriptionRequestConfirmed`; `sender` is the dialog
that reports the answer `result`.  The address is the key the dialog is stored
under, and stays default-constructed when the dialog is not among the values. -/
def onSubscriptionRequestConfirmed (s : JabberPlugin) (sender : Nat) (result : Int) :
    JabberPlugin × List Effect :=
  if s.ENABLE_HEADLESS then (s, [])
  else
    let confirmBoxes := s.m_subscriptionConfirmBoxes.values
    let jid : JID := confirmBoxes.foldl
      (fun jid currentBox =>
        if currentBox = sender then s.m_subscriptionConfirmBoxes.key currentBox else jid)
      default
    -- we got an answer, deleting the box
    let s1 := { s with m_subscriptionConfirmBoxes := s.m_subscriptionConfirmBoxes.remove jid }
    let allowSubscription := result
    let r := if allowSubscription = QMessageBox_Yes then addContact s1 jid.full "" else (s1, [])
    (r.1, r.2 ++ [Effect.allowSubscription jid (allowSubscription = QMessageBox_Yes)])

/-! ## Presence -/

/-- Read access `m_peers[ jid ]`: a peer that is not in the hash is first inserted
with a default-constructed presence type. -/
def touchPeer (s : JabberPlugin) (jid : JID) : JabberPlugin :=
  if s.m_peers.contains jid then s else { s with m_peers := s.m_peers.insert jid default }

/-- The slot `JabberPlugin::onPresenceReceived`. -/
def onPresenceReceived (s : JabberPlugin) (_item : Option RosterItem) (presence : Presence) :
    JabberPlugin × List Effect :=
  if s.m_state != ConnectionState.Connected then (s, [])
  else
    let jid := presence.from_
    if jid = s.m_client.jid then (s, [])
    else if presence.error then (s, [])
    else
      -- ignore anyone not running tomahawk
      match presence.caps with
      | some caps =>
        -- request disco features
        let node := caps.node ++ "#" ++ caps.ver
        (s, [Effect.sendIq jid (IqPayload.DiscoInfo node) IqContext.RequestDisco])
      | none =>
        let s1 := touchPeer s jid
        if presenceMeansOnline (s1.m_peers.value jid) then
          handlePeerStatus s1 jid PresenceType.Unavailable
        else (s1, [])

/-! ## Signalling messages -/

/-- Modelled from the spec: the macro `TOMAHAWK_FEATURE` (jabber.h is not part of the
sources at hand), the well-known feature URI that tells this application is present. -/
def TOMAHAWK_FEATURE : String := "tomahawk:sip:v1"

/-- The JSON parser `QJson::Parser::parse`, seen through the test that follows it:
`some m` when the text parses and the result is a map, `none` otherwise. -/
abbrev JsonParser : Type := String → Option QVariantMap

/-- Whether a key is present in a `QVariantMap`. -/
def QVariantMap.contains : QVariantMap → String → Bool
  | [], _ => false
  | (k, _) :: m, key => if k = key then true else QVariantMap.contains m key

/-- Modelled from the spec: `SipInfo::fromJson` (libtomahawk, not part of the sources
at hand), the decoding of section 4.5: the body is parsed as a structured map, a body
that is no map decodes to nothing valid, and with `visible` true each of the four
fields is set only when its key is present, so that a missing one leaves the result
invalid. -/
def SipInfo.fromJson (parse : JsonParser) (json : String) : SipInfo :=
  match parse json with
  | none => {}
  | some m =>
    if (m.get "visible").toBool then
      { visible := some true
        host := if m.contains "ip" then some (m.get "ip").toString else none
        port := if m.contains "port" then some (m.get "port").toInt else none
        uniqname := if m.contains "uniqname" then some (m.get "uniqname").toString else none
        key := if m.contains "key" then some (m.get "key").toString else none }
    else { visible := some false }

/-- The reply `onNewMessage` sends to whoever writes to this automatic presence. -/
def automaticResponse : String :=
  "I'm sorry -- I'm just an automatic presence used by Tomahawk Player" ++
  " (http://gettomahawk.com). If you are getting this message, the person you" ++
  " are trying to reach is probably not signed on, so please try again later!"

/-- The slot `JabberPlugin::onNewMessage`. -/
def onNewMessage (s : JabberPlugin) (parse : JsonParser) (message : Message) :
    JabberPlugin × List Effect :=
  if s.m_state != ConnectionState.Connected then (s, [])
  else
    let from_ := message.from_.full
    let msg := message.body
    if msg.isEmpty then (s, [])
    else if message.subtype = MessageType.Error then (s, [])
    else
      let info := SipInfo.fromJson parse msg
      if !info.isValid then
        let to_ := from_
        -- this is not a sip message, so we send it directly through the client
        (s, [Effect.sendMessage MessageType.Error (JID.mk to_) automaticResponse,
             Effect.msgReceived from_ msg])
      else (s, [Effect.sipInfoReceived from_ info])

/-- The function `JabberPlugin::sendMsg` (`m_client` is never null once the plugin is
constructed). -/
def sendMsg (s : JabberPlugin) (parse : JsonParser) (to_ : String) (msg : String) :
    JabberPlugin × List Effect :=
  match parse msg with
  | none => (s, [])
  | some m =>
    let sipMessage :=
      if (m.get "visible").toBool then
        TomahawkSipMessage.visibleWith (m.get "ip").toString (m.get "port").toInt
          (m.get "uniqname").toString (m.get "key").toString
      else TomahawkSipMessage.invisible
    (s, [Effect.sendIqSet (JID.mk to_) (IqPayload.SipMessage sipMessage)
          IqContext.SipMessageSent])

/-- The `SipInfo` the last branch of `onNewIq` builds from a received message. -/
def sipInfoOf (sipMessage : TomahawkSipMessage) : SipInfo :=
  let info : SipInfo := { visible := some sipMessage.visible }
  if sipMessage.visible then
    { info with
      host := some sipMessage.ip
      port := some sipMessage.port
      uniqname := some sipMessage.uniqname
      key := some sipMessage.key }
  else info

/-- The slot `JabberPlugin::onNewIq`; `context` is the tag of the reply object that
delivers the IQ, `NoContext` when there is none. -/
def onNewIq (s : JabberPlugin) (iq : IQ) (context : IqContext) : JabberPlugin × List Effect :=
  if s.m_state != ConnectionState.Connected then (s, [])
  else if context = IqContext.RequestDisco then
    match iq.discoInfo with
    | none => (s, [])
    | some discoInfo =>
      let jid := iq.from_
      if discoInfo.features.contains TOMAHAWK_FEATURE then
        -- the actual presence doesn't matter, it just needs to be "online"
        let r := handlePeerStatus s jid PresenceType.Available
        (r.1, [Effect.iqAccept] ++ r.2)
      else (s, [Effect.iqAccept])
  else if context = IqContext.RequestVersion then
    match iq.softwareVersion with
    | some softwareVersion =>
      let versionString :=
        softwareVersion.name ++ " " ++ softwareVersion.os ++ " " ++ softwareVersion.version
      (s, [Effect.softwareVersionReceived iq.from_.full versionString])
    | none => (s, [])
  else if context = IqContext.RequestedDisco then (s, [])
  else if context = IqContext.SipMessageSent then (s, [])
  else
    match iq.sipMessage with
    | some sipMessage =>
      (s, [Effect.iqAccept, Effect.sipInfoReceived iq.from_.full (sipInfoOf sipMessage)])
    | none => (s, [])

/-! ## Settings -/

/-- Whether the peer is tracked with a stored presence that means online. -/
def trackedOnline (s : JabberPlugin) (jid : JID) : Bool :=
  s.m_peers.contains jid && presenceMeansOnline (s.m_peers.value jid)

/-- Scan of an effect list for a repeated `peerOnline( f )`: `armed` tells that an
online event of `f` was seen and no offline event of `f` since. -/
def onlineOnce (f : String) : Bool → List Effect → Bool
  | _, [] => true
  | armed, e :: es =>
    if e = Effect.peerOnline f then !armed && onlineOnce f true es
    else if e = Effect.peerOffline f then onlineOnce f false es
    else onlineOnce f armed es

/-- The states announced by the `stateChanged` signals of an effect list, in order. -/
def stateChanges : List Effect → List ConnectionState
  | [] => []
  | Effect.stateChanged st :: es => st :: stateChanges es
  | _ :: es => stateChanges es

/-- The `error` signals of an effect list, in order. -/
def errorsOf : List Effect → List (SipErrorState × String)
  | [] => []
  | Effect.error code msg :: es => (code, msg) :: errorsOf es
  | _ :: es => errorsOf es

/-- The identities of the confirmation dialogs an effect list opens, in order. -/
def promptsOf : List Effect → List Nat
  | [] => []
  | Effect.confirmBoxOpen box _ :: es => box :: promptsOf es
  | _ :: es => promptsOf es

/-- The approvals and denials an effect list sends through `allowSubscription`. -/
def decisionsOf : List Effect → List (JID × Bool)
  | [] => []
  | Effect.allowSubscription jid ok :: es => (jid, ok) :: decisionsOf es
  | _ :: es => decisionsOf es

/-! ## Facts about `QHash` -/

namespace QHash

variable {K V : Type} [DecidableEq K]

theorem contains_insert_self (m : QHash K V) (k : K) (v : V) :
    (m.insert k v).contains k = true := by
  induction m with
  | nil => simp [insert, contains]
  | cons e m ih =>
    obtain ⟨k', v'⟩ := e
    by_cases h : k' = k
    · simp [insert, contains, h]
    · simp [insert, contains, h, ih]

theorem value_insert_self [Inhabited V] (m : QHash K V) (k : K) (v : V) :
    (m.insert k v).value k = v := by
  induction m with
  | nil => simp [insert, value]
  | cons e m ih =>
    obtain ⟨k', v'⟩ := e
    by_cases h : k' = k
    · simp [insert, value, h]
    · simp [insert, value, h, ih]

theorem contains_insert_of_ne (m : QHash K V) {k j : K} (v : V) (h : k ≠ j) :
    (m.insert k v).contains j = m.contains j := by
  induction m with
  | nil => simp [insert, contains, h]
  | cons e m ih =>
    obtain ⟨k', v'⟩ := e
    by_cases hk : k' = k
    · subst hk; simp [insert, contains, h]
    · by_cases hj : k' = j
      · subst hj; simp [insert, contains, hk]
      · simp [insert, contains, hk, hj, ih]

theorem value_insert_of_ne [Inhabited V] (m : QHash K V) {k j : K} (v : V) (h : k ≠ j) :
    (m.insert k v).value j = m.value j := by
  induction m with
  | nil => simp [insert, value, h]
  | cons e m ih =>
    obtain ⟨k', v'⟩ := e
    by_cases hk : k' = k
    · subst hk; simp [insert, value, h]
    · by_cases hj : k' = j
      · subst hj; simp [insert, value, hk]
      · simp [insert, value, hk, hj, ih]

theorem contains_insert (m : QHash K V) (k j : K) (v : V) :
    (m.insert k v).contains j = (decide (k = j) || m.contains j) := by
  by_cases h : k = j
  · subst h; simp [contains_insert_self]
  · simp [contains_insert_of_ne m v h, h]

theorem keys_insert_of_contains (m : QHash K V) (k : K) (v : V) (h : m.contains k = true) :
    (m.insert k v).keys = m.keys := by
  induction m with
  | nil => simp [contains] at h
  | cons e m ih =>
    obtain ⟨k', v'⟩ := e
    by_cases hk : k' = k
    · simp [insert, keys, hk]
    · simp only [contains, hk, if_false] at h
      have := ih h
      simp only [keys] at this
      simp [insert, keys, hk, this]

theorem contains_iff_mem_keys (m : QHash K V) (k : K) :
    m.contains k = true ↔ k ∈ m.keys := by
  induction m with
  | nil => simp [contains, keys]
  | cons e m ih =>
    obtain ⟨k', v'⟩ := e
    by_cases hk : k' = k
    · simp [contains, keys, hk]
    · have hk2 : ¬ k = k' := fun h => hk h.symm
      simp only [keys] at ih
      simp [contains, keys, hk, hk2, ih]

end QHash

/-! ## Facts about the peer registry -/

theorem onNewAvatar_state (s : JabberPlugin) (jid : String) : (onNewAvatar s jid).1 = s := by
  unfold onNewAvatar
  split_ifs <;> rfl

theorem onNewAvatar_effects (s : JabberPlugin) (jid : String) :
    ∀ e ∈ (onNewAvatar s jid).2, ∃ x, e = Effect.avatarReceived x := by
  intro e he
  simp only [onNewAvatar] at he
  split_ifs at he <;> simp at he
  all_goals
    rcases he with ⟨a, _, rfl⟩ | rfl <;> exact ⟨_, rfl⟩

/-- The registry after `handlePeerStatus`: the observed presence is stored, whatever
branch is taken, and nothing else of the plugin changes. -/
theorem handlePeerStatus_state (s : JabberPlugin) (jid : JID) (p : PresenceType) :
    (handlePeerStatus s jid p).1 = { s with m_peers := s.m_peers.insert jid p } := by
  simp only [handlePeerStatus]
  split_ifs <;> first | rfl | exact onNewAvatar_state _ _

/-- The three outcomes of `handlePeerStatus`, by its effects. -/
theorem handlePeerStatus_effects (s : JabberPlugin) (jid : JID) (p : PresenceType) :
    (presenceMeansOnline p = false ∧
        (s.m_peers.contains jid = false ∨ presenceMeansOnline (s.m_peers.value jid) = true) ∧
        (handlePeerStatus s jid p).2 = [Effect.peerOffline jid.full]) ∨
    (presenceMeansOnline p = true ∧
        (s.m_peers.contains jid = false ∨ presenceMeansOnline (s.m_peers.value jid) = false) ∧
        ∃ av, (∀ e ∈ av, ∃ x, e = Effect.avatarReceived x) ∧
          (handlePeerStatus s jid p).2 = Effect.peerOnline jid.full ::
            (av ++ [Effect.sendIq jid IqPayload.SoftwareVersion IqContext.RequestVersion])) ∨
    (s.m_peers.contains jid = true ∧
        presenceMeansOnline (s.m_peers.value jid) = presenceMeansOnline p ∧
        (handlePeerStatus s jid p).2 = []) := by
  simp only [handlePeerStatus]
  split_ifs with h1 h2 h3
  · left
    simp only [Bool.and_eq_true, Bool.or_eq_true, Bool.not_eq_true'] at h1
    exact ⟨h1.1, h1.2, rfl⟩
  · right; left
    simp only [Bool.and_eq_true, Bool.or_eq_true, Bool.not_eq_true'] at h2
    exact ⟨h2.1, h2.2, _, onNewAvatar_effects _ _, rfl⟩
  · right; left
    simp only [Bool.and_eq_true, Bool.or_eq_true, Bool.not_eq_true'] at h2
    exact ⟨h2.1, h2.2, [], by simp, rfl⟩
  · right; right
    refine ⟨?_, ?_, rfl⟩
    · revert h1 h2
      cases presenceMeansOnline p <;> cases s.m_peers.contains jid <;> simp
    · revert h1 h2
      cases presenceMeansOnline p <;> cases s.m_peers.contains jid <;>
        cases presenceMeansOnline (s.m_peers.value jid) <;> simp

theorem trackedOnline_handlePeerStatus (s : JabberPlugin) (jid : JID) (p : PresenceType) :
    trackedOnline (handlePeerStatus s jid p).1 jid = presenceMeansOnline p := by
  rw [handlePeerStatus_state]
  simp [trackedOnline, QHash.contains_insert_self, QHash.value_insert_self]

/-! ## Facts about the scan for repeated online events -/

theorem onlineOnce_skip (f : String) (armed : Bool) (xs es : List Effect)
    (h : ∀ e ∈ xs, e ≠ Effect.peerOnline f ∧ e ≠ Effect.peerOffline f) :
    onlineOnce f armed (xs ++ es) = onlineOnce f armed es := by
  induction xs with
  | nil => rfl
  | cons x xs ih =>
    have hx := h x (List.mem_cons_self _ _)
    have ih2 := ih (fun e he => h e (List.mem_cons_of_mem _ he))
    simp [onlineOnce, hx.1, hx.2, ih2]

theorem onlineOnce_armed (f : String) (l2 l3 : List Effect)
    (h : onlineOnce f true (l2 ++ Effect.peerOnline f :: l3) = true) :
    Effect.peerOffline f ∈ l2 := by
  induction l2 with
  | nil => simp [onlineOnce] at h
  | cons e l2 ih =>
    by_cases h1 : e = Effect.peerOnline f
    · simp [onlineOnce, h1] at h
    · by_cases h2 : e = Effect.peerOffline f
      · simp [h2]
      · simp only [List.cons_append, onlineOnce, h1, h2, if_false] at h
        exact List.mem_cons_of_mem _ (ih h)

theorem onlineOnce_between (f : String) (armed : Bool) (l1 l2 l3 : List Effect)
    (h : onlineOnce f armed (l1 ++ Effect.peerOnline f :: (l2 ++ Effect.peerOnline f :: l3)) = true) :
    Effect.peerOffline f ∈ l2 := by
  induction l1 generalizing armed with
  | nil =>
    simp only [List.nil_append, onlineOnce, if_true, Bool.and_eq_true] at h
    exact onlineOnce_armed f l2 l3 h.2
  | cons e l1 ih =>
    by_cases h1 : e = Effect.peerOnline f
    · simp only [List.cons_append, onlineOnce, h1, if_true, Bool.and_eq_true] at h
      exact ih _ h.2
    · by_cases h2 : e = Effect.peerOffline f
      · have h3 : Effect.peerOffline f ≠ Effect.peerOnline f := by simp
        simp only [List.cons_append, onlineOnce, h2, h3, if_true, if_false] at h
        exact ih _ h
      · simp only [List.cons_append, onlineOnce, h1, h2, if_false] at h
        exact ih _ h

/-- The scan accepts every run of `handlePeerStatus` for one peer, started with the
flag telling whether the peer is tracked as online. -/
theorem onlineOnce_handlePeerStatusSeq (jid : JID) (ps : List PresenceType) (s : JabberPlugin) :
    onlineOnce jid.full (trackedOnline s jid) (handlePeerStatusSeq jid s ps).2 = true := by
  induction ps generalizing s with
  | nil => rfl
  | cons p ps ih =>
    have ih2 := ih (handlePeerStatus s jid p).1
    rw [trackedOnline_handlePeerStatus] at ih2
    simp only [handlePeerStatusSeq]
    rcases handlePeerStatus_effects s jid p with ⟨hp, _, he⟩ | ⟨hp, hst, av, hav, he⟩ | ⟨hc, hv, he⟩
    · rw [he]
      rw [hp] at ih2
      simpa [onlineOnce] using ih2
    · rw [he]
      rw [hp] at ih2
      have harm : trackedOnline s jid = false := by
        rcases hst with h | h <;> simp [trackedOnline, h]
      have hskip : ∀ e ∈ av ++ [Effect.sendIq jid IqPayload.SoftwareVersion IqContext.RequestVersion],
          e ≠ Effect.peerOnline jid.full ∧ e ≠ Effect.peerOffline jid.full := by
        intro e he2
        rcases List.mem_append.1 he2 with h | h
        · obtain ⟨x, rfl⟩ := hav e h
          simp
        · rw [List.mem_singleton.1 h]
          simp
      simp only [List.cons_append, onlineOnce, if_true, harm, Bool.not_false, Bool.true_and]
      exact (onlineOnce_skip _ _ _ _ hskip).trans ih2
    · rw [he]
      have harm : trackedOnline s jid = presenceMeansOnline p := by
        simp [trackedOnline, hc, hv]
      simpa [harm] using ih2

/-! ## Facts about the offline synthesis of `onDisconnect` -/

theorem presenceMeansOnline_unavailable :
    presenceMeansOnline PresenceType.Unavailable = false := rfl

/-- One round of the loop: observing `Unavailable` for a peer. -/
theorem handlePeerStatus_unavailable (s : JabberPlugin) (jid : JID) :
    (handlePeerStatus s jid PresenceType.Unavailable).2 =
      if !s.m_peers.contains jid || presenceMeansOnline (s.m_peers.value jid)
      then [Effect.peerOffline jid.full] else [] := by
  simp only [handlePeerStatus, presenceMeansOnline_unavailable, Bool.not_false, Bool.true_and,
    Bool.false_and]
  split_ifs <;> first | rfl | simp_all

theorem handlePeerStatusEach_state (p : PresenceType) (ks : List JID) (s : JabberPlugin) :
    (handlePeerStatusEach p s ks).1 =
      { s with m_peers := ks.foldl (fun m k => m.insert k p) s.m_peers } := by
  induction ks generalizing s with
  | nil => rfl
  | cons k ks ih =>
    simp only [handlePeerStatusEach, ih, handlePeerStatus_state, List.foldl_cons]

theorem foldl_insert_contains (p : PresenceType) (ks : List JID) (m : QHash JID PresenceType)
    (j : JID) :
    (ks.foldl (fun m k => m.insert k p) m).contains j = (m.contains j || decide (j ∈ ks)) := by
  induction ks generalizing m with
  | nil => simp
  | cons k ks ih =>
    rw [List.foldl_cons, ih, QHash.contains_insert]
    by_cases h : k = j
    · subst h; simp
    · have h2 : ¬ j = k := fun e => h e.symm
      simp [h, h2]

theorem foldl_insert_value (p : PresenceType) (ks : List JID) (m : QHash JID PresenceType)
    (j : JID) :
    (ks.foldl (fun m k => m.insert k p) m).value j = if j ∈ ks then p else m.value j := by
  induction ks generalizing m with
  | nil => simp
  | cons k ks ih =>
    rw [List.foldl_cons, ih]
    by_cases h : k = j
    · subst h; simp [QHash.value_insert_self]
    · have h2 : ¬ j = k := fun e => h e.symm
      simp [h2, QHash.value_insert_of_ne _ _ h]

theorem handlePeerStatusEach_effects (ks : List JID) (s : JabberPlugin) :
    ∀ e ∈ (handlePeerStatusEach PresenceType.Unavailable s ks).2,
      ∃ k ∈ ks, e = Effect.peerOffline k.full := by
  induction ks generalizing s with
  | nil => intro e he; simp [handlePeerStatusEach] at he
  | cons k ks ih =>
    intro e he
    simp only [handlePeerStatusEach, List.mem_append, handlePeerStatus_unavailable] at he
    rcases he with he | he
    · split_ifs at he
      · exact ⟨k, List.mem_cons_self _ _, List.mem_singleton.1 he⟩
      · simp at he
    · obtain ⟨k', hk', rfl⟩ := ih _ e he
      exact ⟨k', List.mem_cons_of_mem _ hk', rfl⟩

/-- How often the loop emits `peerOffline` for a peer: once when the peer is among
the keys visited and was untracked or tracked as online, never otherwise. -/
theorem handlePeerStatusEach_count (j : JID) (ks : List JID) (s : JabberPlugin) :
    List.count (Effect.peerOffline j.full)
        (handlePeerStatusEach PresenceType.Unavailable s ks).2 =
      if j ∈ ks ∧ (s.m_peers.contains j = false ∨ presenceMeansOnline (s.m_peers.value j) = true)
      then 1 else 0 := by
  induction ks generalizing s with
  | nil => simp [handlePeerStatusEach]
  | cons k ks ih =>
    simp only [handlePeerStatusEach, List.count_append, ih, handlePeerStatus_state,
      handlePeerStatus_unavailable]
    by_cases h : k = j
    · subst h
      simp only [QHash.contains_insert_self, QHash.value_insert_self,
        presenceMeansOnline_unavailable, List.mem_cons, true_or, true_and]
      cases hc : s.m_peers.contains k <;> cases hv : presenceMeansOnline (s.m_peers.value k) <;>
        simp
    · have h2 : ¬ j = k := fun e => h e.symm
      have h3 : ¬ k.full = j.full := by
        intro e
        apply h
        cases k; cases j; simp_all
      rw [QHash.contains_insert_of_ne _ _ h, QHash.value_insert_of_ne _ _ h]
      have h0 : List.count (Effect.peerOffline j.full)
          (if (!s.m_peers.contains k || presenceMeansOnline (s.m_peers.value k)) = true
            then [Effect.peerOffline k.full] else []) = 0 := by
        split_ifs
        · rw [List.count_eq_zero]
          intro hm
          rw [List.mem_singleton] at hm
          exact h3 (Effect.peerOffline.inj hm).symm
        · rfl
      rw [h0]
      simp [h2]

/-- The switch of `onDisconnect` leaves the registry, the menu and the build switch
alone and emits nothing but `error` signals. -/
theorem onDisconnectSwitch_spec (s : JabberPlugin) (reason : DisconnectReason) :
    (onDisconnectSwitch s reason).1 = s ∧
    stateChanges (onDisconnectSwitch s reason).2 = [] ∧
    ∀ e ∈ (onDisconnectSwitch s reason).2, ∃ c m, e = Effect.error c m := by
  cases reason <;> simp [onDisconnectSwitch, errorMessage, stateChanges]

theorem removeMenuHelper_spec (s : JabberPlugin) :
    (removeMenuHelper s).1.m_peers = s.m_peers ∧
    (removeMenuHelper s).1.m_state = s.m_state ∧
    ((removeMenuHelper s).2 = [] ∨ (removeMenuHelper s).2 = [Effect.removeMenu]) := by
  unfold removeMenuHelper
  split_ifs <;> simp

theorem foldl_insert_keys (p : PresenceType) (ks : List JID) (m : QHash JID PresenceType)
    (h : ∀ k ∈ ks, m.contains k = true) :
    (ks.foldl (fun m k => m.insert k p) m).keys = m.keys := by
  induction ks generalizing m with
  | nil => rfl
  | cons k ks ih =>
    rw [List.foldl_cons, ih, QHash.keys_insert_of_contains _ _ _ (h k (List.mem_cons_self _ _))]
    intro k' hk'
    rw [QHash.contains_insert, h k' (List.mem_cons_of_mem _ hk')]
    simp

theorem beforeLoop_peers (s : JabberPlugin) (reason : DisconnectReason) :
    (beforeLoop s reason).m_peers = s.m_peers := by
  unfold beforeLoop
  rw [(removeMenuHelper_spec _).1, (onDisconnectSwitch_spec s reason).1]

theorem beforeLoop_state (s : JabberPlugin) (reason : DisconnectReason) :
    (beforeLoop s reason).m_state = ConnectionState.Disconnected := by
  unfold beforeLoop
  rw [(removeMenuHelper_spec _).2.1]

theorem onDisconnect_effects (s : JabberPlugin) (reason : DisconnectReason) :
    (onDisconnect s reason).2 =
      (onDisconnectSwitch s reason).2 ++ [Effect.stateChanged ConnectionState.Disconnected] ++
        (removeMenuHelper
          { (onDisconnectSwitch s reason).1 with m_state := ConnectionState.Disconnected }).2 ++
        (handlePeerStatusEach PresenceType.Unavailable (beforeLoop s reason) s.m_peers.keys).2 := by
  rw [← beforeLoop_peers s reason]
  rfl

theorem onDisconnect_state (s : JabberPlugin) (reason : DisconnectReason) :
    (onDisconnect s reason).1 =
      { beforeLoop s reason with
        m_peers := s.m_peers.keys.foldl (fun m k => m.insert k PresenceType.Unavailable)
          s.m_peers } := by
  have h : (onDisconnect s reason).1 =
      (handlePeerStatusEach PresenceType.Unavailable (beforeLoop s reason)
        (beforeLoop s reason).m_peers.keys).1 := rfl
  rw [h, handlePeerStatusEach_state, beforeLoop_peers]

theorem onDisconnect_peers (s : JabberPlugin) (reason : DisconnectReason) :
    (onDisconnect s reason).1.m_peers =
      s.m_peers.keys.foldl (fun m k => m.insert k PresenceType.Unavailable) s.m_peers := by
  rw [onDisconnect_state]

/-- Outside its loop, `onDisconnect` emits only `error`, `stateChanged` and
`removeMenu`. -/
theorem onDisconnect_mem (s : JabberPlugin) (reason : DisconnectReason) (e : Effect)
    (he : e ∈ (onDisconnect s reason).2) :
    (∃ c m, e = Effect.error c m) ∨ e = Effect.stateChanged ConnectionState.Disconnected ∨
      e = Effect.removeMenu ∨ ∃ k ∈ s.m_peers.keys, e = Effect.peerOffline k.full := by
  rw [onDisconnect_effects] at he
  simp only [List.mem_append, List.mem_singleton] at he
  rcases he with ((he | he) | he) | he
  · exact Or.inl ((onDisconnectSwitch_spec s reason).2.2 e he)
  · exact Or.inr (Or.inl he)
  · rcases (removeMenuHelper_spec
      { (onDisconnectSwitch s reason).1 with m_state := ConnectionState.Disconnected }).2.2
      with h | h
    · rw [h] at he; simp at he
    · rw [h] at he; exact Or.inr (Or.inr (Or.inl (List.mem_singleton.1 he)))
  · exact Or.inr (Or.inr (Or.inr (handlePeerStatusEach_effects _ _ e he)))

/-! ## Facts about the connection lifecycle -/

theorem stateChanges_append (xs ys : List Effect) :
    stateChanges (xs ++ ys) = stateChanges xs ++ stateChanges ys := by
  induction xs with
  | nil => rfl
  | cons x xs ih => cases x <;> simp [stateChanges, ih]

theorem addMenuHelper_spec (s : JabberPlugin) :
    (addMenuHelper s).1.m_state = s.m_state ∧
    ((addMenuHelper s).2 = [] ∨ (addMenuHelper s).2 = [Effect.addMenu]) := by
  unfold addMenuHelper
  split_ifs <;> simp

/-- What `onConnect` does from any state: it ends Connected, announces exactly that
state and loads the roster once. -/
theorem onConnect_spec (s : JabberPlugin) :
    (onConnect s).1.m_state = ConnectionState.Connected ∧
    stateChanges (onConnect s).2 = [ConnectionState.Connected] ∧
    List.count Effect.rosterLoad (onConnect s).2 = 1 := by
  simp only [onConnect]
  refine ⟨?_, ?_, ?_⟩
  · rw [(addMenuHelper_spec _).1]
  · rw [stateChanges_append, stateChanges_append]
    rcases (addMenuHelper_spec
      { (if (s.m_client.jid.resource != s.m_currentResource) = true then
          (({ s with m_currentResource := s.m_client.jid.resource } : JabberPlugin),
            [Effect.jidChanged s.m_client.jid.full])
        else (s, [])).1 with m_state := ConnectionState.Connected }).2 with h | h <;>
      rw [h] <;> split_ifs <;> simp [stateChanges]
  · rw [List.count_append, List.count_append]
    rcases (addMenuHelper_spec
      { (if (s.m_client.jid.resource != s.m_currentResource) = true then
          (({ s with m_currentResource := s.m_client.jid.resource } : JabberPlugin),
            [Effect.jidChanged s.m_client.jid.full])
        else (s, [])).1 with m_state := ConnectionState.Connected }).2 with h | h <;>
      rw [h] <;> split_ifs <;> simp

theorem errorsOf_append (xs ys : List Effect) :
    errorsOf (xs ++ ys) = errorsOf xs ++ errorsOf ys := by
  induction xs with
  | nil => rfl
  | cons x xs ih => cases x <;> simp [errorsOf, ih]

theorem stateChanges_eq_nil (xs : List Effect)
    (h : ∀ e ∈ xs, ∀ st, e ≠ Effect.stateChanged st) : stateChanges xs = [] := by
  induction xs with
  | nil => rfl
  | cons x xs ih =>
    have hx := h x (List.mem_cons_self _ _)
    have ih2 := ih (fun e he => h e (List.mem_cons_of_mem _ he))
    cases x <;> simp_all [stateChanges]

theorem errorsOf_eq_nil (xs : List Effect)
    (h : ∀ e ∈ xs, ∀ c m, e ≠ Effect.error c m) : errorsOf xs = [] := by
  induction xs with
  | nil => rfl
  | cons x xs ih =>
    have hx := h x (List.mem_cons_self _ _)
    have ih2 := ih (fun e he => h e (List.mem_cons_of_mem _ he))
    cases x <;> simp_all [errorsOf]

/-- Counting one `stateChanged` signal in the announced states is counting it in
the effects. -/
theorem count_stateChanged (st : ConnectionState) (xs : List Effect) :
    List.count st (stateChanges xs) = List.count (Effect.stateChanged st) xs := by
  induction xs with
  | nil => rfl
  | cons x xs ih =>
    cases x <;> simp [stateChanges, ih, List.count_cons]

/-- C1. In the effects of any run of `handlePeerStatus` calls for one peer, from any
plugin state, two `peerOnline` events of that peer always have a `peerOffline` of
that peer between them: the online event fires at most once between two
consecutive offline events, and at most once before the first one. -/
theorem C1_peerOnline_once_between_offline (s : JabberPlugin) (jid : JID)
    (ps : List PresenceType) (l1 l2 l3 : List Effect) :
    (handlePeerStatusSeq jid s ps).2 =
        l1 ++ Effect.peerOnline jid.full :: (l2 ++ Effect.peerOnline jid.full :: l3) →
      Effect.peerOffline jid.full ∈ l2 := by
  intro h
  have hscan := onlineOnce_handlePeerStatusSeq jid ps s
  rw [h] at hscan
  exact onlineOnce_between _ _ l1 l2 l3 hscan

/-- The run of C1 at a concrete input: a peer seen Available, Unavailable, Available. -/
theorem C1_peerOnline_once_between_offline_witness :
    (handlePeerStatusSeq (JID.mk "a@x.com/res") {}
        [PresenceType.Available, PresenceType.Unavailable, PresenceType.Available]).2 =
      [] ++ Effect.peerOnline "a@x.com/res" ::
        ([Effect.sendIq (JID.mk "a@x.com/res") IqPayload.SoftwareVersion IqContext.RequestVersion,
          Effect.peerOffline "a@x.com/res"] ++
          Effect.peerOnline "a@x.com/res" ::
            [Effect.sendIq (JID.mk "a@x.com/res") IqPayload.SoftwareVersion
              IqContext.RequestVersion]) ∧
    Effect.peerOffline "a@x.com/res" ∈
      [Effect.sendIq (JID.mk "a@x.com/res") IqPayload.SoftwareVersion IqContext.RequestVersion,
        Effect.peerOffline "a@x.com/res"] :=
  ⟨by decide,
    C1_peerOnline_once_between_offline {} (JID.mk "a@x.com/res")
      [PresenceType.Available, PresenceType.Unavailable, PresenceType.Available] []
      [Effect.sendIq (JID.mk "a@x.com/res") IqPayload.SoftwareVersion IqContext.RequestVersion,
        Effect.peerOffline "a@x.com/res"]
      [Effect.sendIq (JID.mk "a@x.com/res") IqPayload.SoftwareVersion IqContext.RequestVersion]
      (by decide)⟩

/-- C3, as stated, fails: after `onDisconnect` on a registry with one online peer
the state is Disconnected and the registry still holds that peer, stored as
Unavailable. -/
theorem C3_registry_kept_after_onDisconnect :
    (onDisconnect
      { m_state := ConnectionState.Connected
        m_peers := [(JID.mk "a@x.com/res", PresenceType.Available)] }
      DisconnectReason.RemoteConnectionFailed).1.m_state = ConnectionState.Disconnected ∧
    (onDisconnect
      { m_state := ConnectionState.Connected
        m_peers := [(JID.mk "a@x.com/res", PresenceType.Available)] }
      DisconnectReason.RemoteConnectionFailed).1.m_peers =
        [(JID.mk "a@x.com/res", PresenceType.Unavailable)] := by
  decide

/-- C3, amended. After `onDisconnect( reason )`, for every reason and registry, the
state is Disconnected and the registry holds exactly the peers it held before, each
stored as Unavailable: the entries are marked offline, not removed, so the registry
is empty afterwards only when it was empty before the call. -/
theorem C3_onDisconnect_marks_offline (s : JabberPlugin) (reason : DisconnectReason) :
    (onDisconnect s reason).1.m_state = ConnectionState.Disconnected ∧
    (onDisconnect s reason).1.m_peers.keys = s.m_peers.keys ∧
    (∀ j, (onDisconnect s reason).1.m_peers.contains j = s.m_peers.contains j) ∧
    (∀ j, s.m_peers.contains j = true →
      (onDisconnect s reason).1.m_peers.value j = PresenceType.Unavailable) ∧
    ((onDisconnect s reason).1.m_peers = QHash.empty ↔ s.m_peers = QHash.empty) := by
  have hkeys : (onDisconnect s reason).1.m_peers.keys = s.m_peers.keys := by
    rw [onDisconnect_peers]
    exact foldl_insert_keys _ _ _ (fun k hk => (QHash.contains_iff_mem_keys _ _).2 hk)
  refine ⟨?_, hkeys, ?_, ?_, ?_⟩
  · rw [onDisconnect_state]
    exact beforeLoop_state s reason
  · intro j
    rw [onDisconnect_peers, foldl_insert_contains]
    cases h : s.m_peers.contains j
    · have : j ∉ s.m_peers.keys := fun hm => by
        rw [(QHash.contains_iff_mem_keys _ _).2 hm] at h; cases h
      simp [this]
    · simp
  · intro j hj
    rw [onDisconnect_peers, foldl_insert_value, if_pos ((QHash.contains_iff_mem_keys _ _).1 hj)]
  · unfold QHash.keys at hkeys
    unfold QHash.empty
    constructor
    · intro h
      rw [h] at hkeys
      exact List.map_eq_nil_iff.1 hkeys.symm
    · intro h
      rw [h] at hkeys
      exact List.map_eq_nil_iff.1 hkeys

/-- C4. `onDisconnect( reason )`, for every reason, observes Unavailable for every
peer of the registry: each peer tracked as online gets exactly one `peerOffline`, no
`peerOnline` is emitted and no IQ (so no software-version probe) is sent, every
tracked peer is stored as Unavailable afterwards and none is tracked as online. -/
theorem C4_onDisconnect_offline_synthesis (s : JabberPlugin) (reason : DisconnectReason) :
    (∀ jid, trackedOnline s jid = true →
      List.count (Effect.peerOffline jid.full) (onDisconnect s reason).2 = 1) ∧
    (∀ f, Effect.peerOnline f ∉ (onDisconnect s reason).2) ∧
    (∀ j payload context, Effect.sendIq j payload context ∉ (onDisconnect s reason).2) ∧
    (∀ jid, s.m_peers.contains jid = true →
      (onDisconnect s reason).1.m_peers.value jid = PresenceType.Unavailable) ∧
    (∀ jid, trackedOnline (onDisconnect s reason).1 jid = false) := by
  have hval : ∀ jid, s.m_peers.contains jid = true →
      (onDisconnect s reason).1.m_peers.value jid = PresenceType.Unavailable := by
    intro j hj
    rw [onDisconnect_peers, foldl_insert_value, if_pos ((QHash.contains_iff_mem_keys _ _).1 hj)]
  have hcont : ∀ j, (onDisconnect s reason).1.m_peers.contains j = true →
      s.m_peers.contains j = true := by
    intro j
    rw [onDisconnect_peers, foldl_insert_contains]
    intro h
    rcases Bool.or_eq_true _ _ ▸ h with h | h
    · exact h
    · exact (QHash.contains_iff_mem_keys _ _).2 (of_decide_eq_true h)
  refine ⟨?_, ?_, ?_, hval, ?_⟩
  · intro jid hj
    simp only [trackedOnline, Bool.and_eq_true] at hj
    rw [onDisconnect_effects]
    simp only [List.count_append, handlePeerStatusEach_count, beforeLoop_peers]
    have h1 : List.count (Effect.peerOffline jid.full) (onDisconnectSwitch s reason).2 = 0 := by
      rw [List.count_eq_zero]
      intro hm
      obtain ⟨c, m, hcm⟩ := (onDisconnectSwitch_spec s reason).2.2 _ hm
      cases hcm
    have h2 : List.count (Effect.peerOffline jid.full)
        (removeMenuHelper
          { (onDisconnectSwitch s reason).1 with m_state := ConnectionState.Disconnected }).2
          = 0 := by
      rcases (removeMenuHelper_spec
        { (onDisconnectSwitch s reason).1 with m_state := ConnectionState.Disconnected }).2.2
        with h | h <;> rw [h] <;> simp
    rw [h1, h2]
    simp [(QHash.contains_iff_mem_keys _ _).1 hj.1, hj.2]
  · intro f hm
    rcases onDisconnect_mem s reason _ hm with ⟨c, m, h⟩ | h | h | ⟨k, _, h⟩ <;> cases h
  · intro j payload context hm
    rcases onDisconnect_mem s reason _ hm with ⟨c, m, h⟩ | h | h | ⟨k, _, h⟩ <;> cases h
  · intro jid
    simp only [trackedOnline]
    cases hc : (onDisconnect s reason).1.m_peers.contains jid
    · rfl
    · rw [hval jid (hcont jid hc)]
      rfl

/-- C5. `disconnectPlugin` with the transport not connected: from state Disconnected
it emits nothing and changes nothing (state and registry stay as they are, an empty
registry stays empty); and two consecutive calls emit at most one
`stateChanged( Disconnected )` in total, no other `stateChanged`, and end in state
Disconnected. -/
theorem C5_disconnectPlugin_idempotent (s : JabberPlugin)
    (hc : s.m_client.isConnected = false) :
    (s.m_state = ConnectionState.Disconnected → disconnectPlugin s = (s, [])) ∧
    List.count (Effect.stateChanged ConnectionState.Disconnected)
      ((disconnectPlugin s).2 ++ (disconnectPlugin (disconnectPlugin s).1).2) ≤ 1 ∧
    stateChanges ((disconnectPlugin s).2 ++ (disconnectPlugin (disconnectPlugin s).1).2) =
      (if s.m_state = ConnectionState.Disconnected then [] else [ConnectionState.Disconnected]) ∧
    (disconnectPlugin (disconnectPlugin s).1).2 = [] ∧
    (disconnectPlugin (disconnectPlugin s).1).1.m_state = ConnectionState.Disconnected ∧
    (disconnectPlugin (disconnectPlugin s).1).1.m_peers = s.m_peers := by
  by_cases hs : s.m_state = ConnectionState.Disconnected
  · have h1 : disconnectPlugin s = (s, []) := by
      simp [disconnectPlugin, hc, hs]
    simp [h1, hs, stateChanges]
  · simp [disconnectPlugin, hc, hs, stateChanges]

/-- C5 at a concrete input: two disconnects while the plugin is still Connecting. -/
theorem C5_disconnectPlugin_idempotent_witness :
    (disconnectPlugin { m_state := ConnectionState.Connecting }).2 =
      [Effect.stateChanged ConnectionState.Disconnected] ∧
    (disconnectPlugin (disconnectPlugin { m_state := ConnectionState.Connecting }).1).2 = [] :=
  ⟨by decide,
    (C5_disconnectPlugin_idempotent { m_state := ConnectionState.Connecting } rfl).2.2.2.1⟩

/-- C6. From state Disconnected with the transport not connected, `connectPlugin`
returns true, and with the `onConnect` that follows (whatever the client then looks
like) the `stateChanged` signals are exactly Connecting, Connected, the plugin ends
Connected and the roster is loaded exactly once. -/
theorem C6_connect_then_onConnect (s : JabberPlugin) (startup : Bool) (client : Client)
    (_hs : s.m_state = ConnectionState.Disconnected) (hc : s.m_client.isConnected = false) :
    (connectPlugin s startup).2.2 = true ∧
    stateChanges ((connectPlugin s startup).2.1 ++
      (onConnect { (connectPlugin s startup).1 with m_client := client }).2) =
        [ConnectionState.Connecting, ConnectionState.Connected] ∧
    (onConnect { (connectPlugin s startup).1 with m_client := client }).1.m_state =
      ConnectionState.Connected ∧
    List.count Effect.rosterLoad ((connectPlugin s startup).2.1 ++
      (onConnect { (connectPlugin s startup).1 with m_client := client }).2) = 1 := by
  have hcp : connectPlugin s startup =
      ({ s with m_state := ConnectionState.Connecting },
        [Effect.connectToServer 1000, Effect.stateChanged ConnectionState.Connecting], true) := by
    simp [connectPlugin, hc]
  rw [hcp]
  obtain ⟨h1, h2, h3⟩ := onConnect_spec
    { ({ s with m_state := ConnectionState.Connecting } : JabberPlugin) with m_client := client }
  refine ⟨rfl, ?_, h1, ?_⟩
  · rw [stateChanges_append, h2]
    rfl
  · rw [List.count_append, h3]
    rfl

/-- C6 at a concrete input: the server rebinds the resource on connect. -/
theorem C6_connect_then_onConnect_witness :
    (connectPlugin { m_currentResource := "tomahawk1" } true).2.1 ++
      (onConnect { (connectPlugin { m_currentResource := "tomahawk1" } true).1 with
        m_client := { isConnected := true, jid := JID.mk "me@x.com/abc" } }).2 =
      [Effect.connectToServer 1000,
       Effect.stateChanged ConnectionState.Connecting,
       Effect.jidChanged "me@x.com/abc",
       Effect.setPresence PresenceType.XA "Got Tomahawk? http://gettomahawk.com" (-127),
       Effect.setPingInterval 1000,
       Effect.rosterLoad,
       Effect.stateChanged ConnectionState.Connected,
       Effect.addMenu] ∧
    List.count Effect.rosterLoad
      ((connectPlugin { m_currentResource := "tomahawk1" } true).2.1 ++
        (onConnect { (connectPlugin { m_currentResource := "tomahawk1" } true).1 with
          m_client := { isConnected := true, jid := JID.mk "me@x.com/abc" } }).2) = 1 :=
  ⟨by decide,
    (C6_connect_then_onConnect { m_currentResource := "tomahawk1" } true
      { isConnected := true, jid := JID.mk "me@x.com/abc" } rfl rfl).2.2.2⟩

/-- C7. `onDisconnect( reason )` emits an `error` of kind AuthError exactly when the
reason is AuthorizationError, one of kind ConnectionError exactly when the reason is
HostUnknown, ItemNotFound, RemoteStreamError, RemoteConnectionFailed,
InternalServerError, SystemShutdown, Conflict or Unknown, and no `error` at all for
User; for every reason the state becomes Disconnected, `stateChanged( Disconnected )`
is emitted exactly once and no other `stateChanged` is. -/
theorem C7_onDisconnect_error_kinds (s : JabberPlugin) (reason : DisconnectReason) :
    ((∃ msg, Effect.error SipErrorState.AuthError msg ∈ (onDisconnect s reason).2) ↔
      reason = DisconnectReason.AuthorizationError) ∧
    ((∃ msg, Effect.error SipErrorState.ConnectionError msg ∈ (onDisconnect s reason).2) ↔
      reason ∈ [DisconnectReason.HostUnknown, DisconnectReason.ItemNotFound,
        DisconnectReason.RemoteStreamError, DisconnectReason.RemoteConnectionFailed,
        DisconnectReason.InternalServerError, DisconnectReason.SystemShutdown,
        DisconnectReason.Conflict, DisconnectReason.Unknown]) ∧
    (reason = DisconnectReason.User → ∀ c msg, Effect.error c msg ∉ (onDisconnect s reason).2) ∧
    List.length (errorsOf (onDisconnect s reason).2) ≤ 1 ∧
    (onDisconnect s reason).1.m_state = ConnectionState.Disconnected ∧
    List.count (Effect.stateChanged ConnectionState.Disconnected) (onDisconnect s reason).2 = 1 ∧
    stateChanges (onDisconnect s reason).2 = [ConnectionState.Disconnected] := by
  have hmem : ∀ c msg, Effect.error c msg ∈ (onDisconnect s reason).2 ↔
      Effect.error c msg ∈ (onDisconnectSwitch s reason).2 := by
    intro c msg
    rw [onDisconnect_effects]
    simp only [List.mem_append, List.mem_singleton]
    constructor
    · rintro (((h | h) | h) | h)
      · exact h
      · cases h
      · rcases (removeMenuHelper_spec
          { (onDisconnectSwitch s reason).1 with m_state := ConnectionState.Disconnected }).2.2
          with h2 | h2 <;> rw [h2] at h <;> simp at h
      · obtain ⟨k, _, hk⟩ := handlePeerStatusEach_effects _ _ _ h
        cases hk
    · intro h
      exact Or.inl (Or.inl (Or.inl h))
  have hloopS : stateChanges
      (handlePeerStatusEach PresenceType.Unavailable (beforeLoop s reason) s.m_peers.keys).2 = [] :=
    stateChanges_eq_nil _ (fun e he st hst => by
      obtain ⟨k, _, hk⟩ := handlePeerStatusEach_effects _ _ _ he
      rw [hk] at hst; cases hst)
  have hloopE : errorsOf
      (handlePeerStatusEach PresenceType.Unavailable (beforeLoop s reason) s.m_peers.keys).2 = [] :=
    errorsOf_eq_nil _ (fun e he c m hcm => by
      obtain ⟨k, _, hk⟩ := handlePeerStatusEach_effects _ _ _ he
      rw [hk] at hcm; cases hcm)
  have hrmS : stateChanges (removeMenuHelper
      { (onDisconnectSwitch s reason).1 with m_state := ConnectionState.Disconnected }).2 = [] := by
    rcases (removeMenuHelper_spec
      { (onDisconnectSwitch s reason).1 with m_state := ConnectionState.Disconnected }).2.2
      with h | h <;> rw [h] <;> rfl
  have hrmE : errorsOf (removeMenuHelper
      { (onDisconnectSwitch s reason).1 with m_state := ConnectionState.Disconnected }).2 = [] := by
    rcases (removeMenuHelper_spec
      { (onDisconnectSwitch s reason).1 with m_state := ConnectionState.Disconnected }).2.2
      with h | h <;> rw [h] <;> rfl
  have hstate : stateChanges (onDisconnect s reason).2 = [ConnectionState.Disconnected] := by
    rw [onDisconnect_effects]
    simp only [stateChanges_append, hloopS, hrmS, (onDisconnectSwitch_spec s reason).2.1]
    rfl
  refine ⟨?_, ?_, ?_, ?_, ?_, ?_, hstate⟩
  · simp only [hmem]
    cases reason <;> simp [onDisconnectSwitch, errorMessage]
  · simp only [hmem]
    cases reason <;> simp [onDisconnectSwitch, errorMessage]
  · rintro rfl c msg
    rw [hmem]
    simp [onDisconnectSwitch]
  · rw [onDisconnect_effects]
    simp only [errorsOf_append, hloopE, hrmE]
    cases reason <;> simp [onDisconnectSwitch, errorMessage, errorsOf]
  · rw [onDisconnect_state]
    exact beforeLoop_state s reason
  · rw [← count_stateChanged, hstate]
    rfl

/-- C8, as stated, fails: two Subscribe requests from the same requester, none
answered, open two confirmation dialogs (numbers 0 and 1). -/
theorem C8_second_request_opens_second_prompt :
    promptsOf
      ((onSubscriptionReceived { m_state := ConnectionState.Connected } none
          { from_ := JID.mk "r@x.com/res", subtype := PresenceType.Subscribe,
            error := false, caps := none }).2 ++
        (onSubscriptionReceived
          (onSubscriptionReceived { m_state := ConnectionState.Connected } none
            { from_ := JID.mk "r@x.com/res", subtype := PresenceType.Subscribe,
              error := false, caps := none }).1
          none
          { from_ := JID.mk "r@x.com/res", subtype := PresenceType.Subscribe,
            error := false, caps := none }).2) = [0, 1] := by
  decide

/-- C8, amended. In a Connected session of a build with dialogs, every Subscribe
request that needs a decision (no roster item, or one that is neither From, Both nor
To nor None with a pending ask) opens one new confirmation dialog and sends no
decision: a second request from the same requester, the first dialog still open,
opens a second dialog, and the pending-approval entry of the requester is then
bound to that second dialog. -/
theorem C8_each_request_opens_a_prompt (s : JabberPlugin) (item : Option RosterItem)
    (presence : Presence)
    (hs : s.m_state = ConnectionState.Connected) (hb : s.ENABLE_HEADLESS = false)
    (hp : presence.subtype = PresenceType.Subscribe)
    (hitem : ∀ it, item = some it →
      it.subscription ≠ SubscriptionType.From ∧ it.subscription ≠ SubscriptionType.Both ∧
      it.subscription ≠ SubscriptionType.To ∧
      (it.subscription = SubscriptionType.None → it.ask.isEmpty = true)) :
    promptsOf (onSubscriptionReceived s item presence).2 = [s.nextBox] ∧
    promptsOf (onSubscriptionReceived (onSubscriptionReceived s item presence).1 item presence).2 =
      [s.nextBox + 1] ∧
    decisionsOf ((onSubscriptionReceived s item presence).2 ++
      (onSubscriptionReceived (onSubscriptionReceived s item presence).1 item presence).2) = [] ∧
    (onSubscriptionReceived s item presence).1.m_subscriptionConfirmBoxes.value presence.from_ =
      s.nextBox ∧
    (onSubscriptionReceived (onSubscriptionReceived s item
      presence).1 item presence).1.m_subscriptionConfirmBoxes.contains presence.from_ = true ∧
    (onSubscriptionReceived (onSubscriptionReceived s item
      presence).1 item presence).1.m_subscriptionConfirmBoxes.value presence.from_ =
        s.nextBox + 1 := by
  have key : ∀ t : JabberPlugin, t.m_state = ConnectionState.Connected →
      t.ENABLE_HEADLESS = false →
      onSubscriptionReceived t item presence =
        ({ t with
            nextBox := t.nextBox + 1
            m_subscriptionConfirmBoxes :=
              t.m_subscriptionConfirmBoxes.insert presence.from_ t.nextBox },
          [Effect.confirmBoxOpen t.nextBox (confirmBoxText presence.from_.bare)]) := by
    intro t ht hbt
    cases item with
    | none => simp [onSubscriptionReceived, ht, hbt, hp]
    | some it =>
      obtain ⟨h1, h2, h3, h4⟩ := hitem it rfl
      by_cases h5 : it.subscription = SubscriptionType.None
      · simp [onSubscriptionReceived, ht, hbt, hp, h5, h4 h5]
      · simp [onSubscriptionReceived, ht, hbt, hp, h1, h2, h3, h5]
  rw [key s hs hb]
  dsimp only
  rw [key { s with
    nextBox := s.nextBox + 1
    m_subscriptionConfirmBoxes := s.m_subscriptionConfirmBoxes.insert presence.from_ s.nextBox }
    hs hb]
  simp [promptsOf, decisionsOf, QHash.contains_insert_self, QHash.value_insert_self]

/-- C8 at a concrete input: a requester whose roster item has no subscription and no
pending ask. -/
theorem C8_each_request_opens_a_prompt_witness :
    promptsOf (onSubscriptionReceived
      (onSubscriptionReceived { m_state := ConnectionState.Connected, nextBox := 4 }
        (some { subscription := SubscriptionType.None, ask := "" })
        { from_ := JID.mk "r@x.com/res", subtype := PresenceType.Subscribe,
          error := false, caps := none }).1
      (some { subscription := SubscriptionType.None, ask := "" })
      { from_ := JID.mk "r@x.com/res", subtype := PresenceType.Subscribe,
        error := false, caps := none }).2 = [4 + 1] :=
  (C8_each_request_opens_a_prompt { m_state := ConnectionState.Connected, nextBox := 4 }
    (some { subscription := SubscriptionType.None, ask := "" })
    { from_ := JID.mk "r@x.com/res", subtype := PresenceType.Subscribe,
      error := false, caps := none }
    rfl rfl rfl (by
      intro it h
      cases h
      decide)).2.1

/-- C9, as stated, fails: a Subscribe request from a requester whose roster item has
subscription From produces no effect at all, so no approval is sent. -/
theorem C9_inbound_subscribed_request_sends_nothing :
    (onSubscriptionReceived { m_state := ConnectionState.Connected }
      (some { subscription := SubscriptionType.From, ask := "" })
      { from_ := JID.mk "r@x.com/res", subtype := PresenceType.Subscribe,
        error := false, caps := none }).2 = [] := by
  decide

/-- C9, amended. For every request whose requester has a roster item with
subscription From or Both, `onSubscriptionReceived` does nothing: it sends no
approval (and nothing else) to the transport, opens no dialog and leaves the plugin
state as it is. -/
theorem C9_inbound_subscribed_request_ignored (s : JabberPlugin) (it : RosterItem)
    (presence : Presence)
    (h : it.subscription = SubscriptionType.From ∨ it.subscription = SubscriptionType.Both) :
    onSubscriptionReceived s (some it) presence = (s, []) := by
  unfold onSubscriptionReceived
  rcases h with h | h <;> simp [h]

/-- C9 at a concrete input: a mutually subscribed requester in a Connected session. -/
theorem C9_inbound_subscribed_request_ignored_witness :
    onSubscriptionReceived { m_state := ConnectionState.Connected }
      (some { subscription := SubscriptionType.Both, ask := "" })
      { from_ := JID.mk "r@x.com/res", subtype := PresenceType.Subscribe,
        error := false, caps := none } =
      ({ m_state := ConnectionState.Connected }, []) :=
  C9_inbound_subscribed_request_ignored { m_state := ConnectionState.Connected }
    { subscription := SubscriptionType.Both, ask := "" }
    { from_ := JID.mk "r@x.com/res", subtype := PresenceType.Subscribe,
      error := false, caps := none }
    (Or.inr rfl)

/-- C10. In a Connected session, a Subscribe request whose requester has a roster
item with subscription To, or with subscription None and a non-empty ask, makes
`onSubscriptionReceived` send exactly one approval, `allowSubscription( from, true )`,
and nothing else: no dialog is opened and the plugin state, the pending approvals
included, is unchanged. -/
theorem C10_outbound_subscribed_request_approved (s : JabberPlugin) (it : RosterItem)
    (presence : Presence)
    (hs : s.m_state = ConnectionState.Connected)
    (hp : presence.subtype = PresenceType.Subscribe)
    (h : it.subscription = SubscriptionType.To ∨
      (it.subscription = SubscriptionType.None ∧ it.ask.isEmpty = false)) :
    onSubscriptionReceived s (some it) presence =
      (s, [Effect.allowSubscription presence.from_ true]) ∧
    decisionsOf (onSubscriptionReceived s (some it) presence).2 = [(presence.from_, true)] ∧
    promptsOf (onSubscriptionReceived s (some it) presence).2 = [] ∧
    (onSubscriptionReceived s (some it) presence).1.m_subscriptionConfirmBoxes =
      s.m_subscriptionConfirmBoxes := by
  have key : onSubscriptionReceived s (some it) presence =
      (s, [Effect.allowSubscription presence.from_ true]) := by
    unfold onSubscriptionReceived
    rcases h with h | ⟨h, h2⟩ <;> simp [h, hs, hp, *]
  rw [key]
  exact ⟨rfl, rfl, rfl, rfl⟩

/-- C10 at a concrete input: a requester we have asked to subscribe to. -/
theorem C10_outbound_subscribed_request_approved_witness :
    onSubscriptionReceived { m_state := ConnectionState.Connected }
      (some { subscription := SubscriptionType.None, ask := "subscribe" })
      { from_ := JID.mk "r@x.com/res", subtype := PresenceType.Subscribe,
        error := false, caps := none } =
      ({ m_state := ConnectionState.Connected },
        [Effect.allowSubscription (JID.mk "r@x.com/res") true]) :=
  (C10_outbound_subscribed_request_approved { m_state := ConnectionState.Connected }
    { subscription := SubscriptionType.None, ask := "subscribe" }
    { from_ := JID.mk "r@x.com/res", subtype := PresenceType.Subscribe,
      error := false, caps := none }
    rfl rfl (Or.inr ⟨rfl, by decide⟩)).1

/-- C11 at its failing input: two Subscribe requests from `r@x.com/res` open the
dialogs 0 and 1, and the entry of the requester is bound to dialog 1.  Answering
dialog 0 with Yes then subscribes to the address `@jabber.org` and sends the approval
to the empty address, not to the requester, whose entry stays in place. -/
theorem C11_first_prompt_answer_goes_to_empty_address :
    promptsOf
      ((onSubscriptionReceived { m_state := ConnectionState.Connected } none
          { from_ := JID.mk "r@x.com/res", subtype := PresenceType.Subscribe,
            error := false, caps := none }).2 ++
        (onSubscriptionReceived
          (onSubscriptionReceived { m_state := ConnectionState.Connected } none
            { from_ := JID.mk "r@x.com/res", subtype := PresenceType.Subscribe,
              error := false, caps := none }).1
          none
          { from_ := JID.mk "r@x.com/res", subtype := PresenceType.Subscribe,
            error := false, caps := none }).2) = [0, 1] ∧
    (onSubscriptionRequestConfirmed
      (onSubscriptionReceived
        (onSubscriptionReceived { m_state := ConnectionState.Connected } none
          { from_ := JID.mk "r@x.com/res", subtype := PresenceType.Subscribe,
            error := false, caps := none }).1
        none
        { from_ := JID.mk "r@x.com/res", subtype := PresenceType.Subscribe,
          error := false, caps := none }).1
      0 QMessageBox_Yes).2 =
      [Effect.rosterSubscribe "@jabber.org" "" "@jabber.org" ["Tomahawk"],
       Effect.allowSubscription (JID.mk "") true] ∧
    (onSubscriptionRequestConfirmed
      (onSubscriptionReceived
        (onSubscriptionReceived { m_state := ConnectionState.Connected } none
          { from_ := JID.mk "r@x.com/res", subtype := PresenceType.Subscribe,
            error := false, caps := none }).1
        none
        { from_ := JID.mk "r@x.com/res", subtype := PresenceType.Subscribe,
          error := false, caps := none }).1
      0 QMessageBox_Yes).1.m_subscriptionConfirmBoxes = [(JID.mk "r@x.com/res", 1)] := by
  decide

/-- C12. The message `sendMsg` builds from a parsed map, handed to `onNewIq` of a
Connected receiver without tag, comes out as `sipInfoReceived` with the same content:
for a map with `visible` true and `ip`, `port`, `uniqname`, `key` present as string,
32-bit integer, string, string, the `SipInfo` is visible with exactly that host, port,
unique name and key; for a map with `visible` false, whatever else it holds, the
`SipInfo` is not visible and has none of the four fields set. -/
theorem C12_sipInfo_round_trip (s r : JabberPlugin) (parse : JsonParser) (to_ msg : String)
    (m : QVariantMap) (sender : JID)
    (hparse : parse msg = some m) (hr : r.m_state = ConnectionState.Connected) :
    (∀ ip port uniqname key,
      m.get "visible" = QVariant.ofBool true →
      m.get "ip" = QVariant.ofString ip →
      m.get "port" = QVariant.ofInt port → -2147483648 ≤ port → port < 2147483648 →
      m.get "uniqname" = QVariant.ofString uniqname →
      m.get "key" = QVariant.ofString key →
      ∃ sipMessage,
        (sendMsg s parse to_ msg).2 =
          [Effect.sendIqSet (JID.mk to_) (IqPayload.SipMessage sipMessage)
            IqContext.SipMessageSent] ∧
        (onNewIq r { from_ := sender, sipMessage := some sipMessage } IqContext.NoContext).2 =
          [Effect.iqAccept,
           Effect.sipInfoReceived sender.full
            { visible := some true, host := some ip, port := some port,
              uniqname := some uniqname, key := some key }]) ∧
    (m.get "visible" = QVariant.ofBool false →
      ∃ sipMessage,
        (sendMsg s parse to_ msg).2 =
          [Effect.sendIqSet (JID.mk to_) (IqPayload.SipMessage sipMessage)
            IqContext.SipMessageSent] ∧
        (onNewIq r { from_ := sender, sipMessage := some sipMessage } IqContext.NoContext).2 =
          [Effect.iqAccept,
           Effect.sipInfoReceived sender.full
            { visible := some false, host := none, port := none,
              uniqname := none, key := none }]) := by
  constructor
  · intro ip port uniqname key hv hip hport hlo hhi hu hk
    refine ⟨TomahawkSipMessage.visibleWith ip port uniqname key, ?_, ?_⟩
    · have h32 : toInt32 port = port := by
        unfold toInt32
        omega
      simp [sendMsg, hparse, hv, hip, hport, hu, hk, QVariant.toBool, QVariant.toString,
        QVariant.toInt, h32]
    · simp [onNewIq, hr, sipInfoOf, TomahawkSipMessage.visibleWith]
  · intro hv
    refine ⟨TomahawkSipMessage.invisible, ?_, ?_⟩
    · simp [sendMsg, hparse, hv, QVariant.toBool]
    · simp [onNewIq, hr, sipInfoOf, TomahawkSipMessage.invisible]

/-- C12 at a concrete input: a visible `SipInfo` for 10.0.0.7, port 50210. -/
theorem C12_sipInfo_round_trip_witness :
    ∃ sipMessage,
      (sendMsg {}
        (fun _ => some [("visible", QVariant.ofBool true), ("ip", QVariant.ofString "10.0.0.7"),
          ("port", QVariant.ofInt 50210), ("uniqname", QVariant.ofString "u-1"),
          ("key", QVariant.ofString "k-1")])
        "b@x.com/res" "json").2 =
        [Effect.sendIqSet (JID.mk "b@x.com/res") (IqPayload.SipMessage sipMessage)
          IqContext.SipMessageSent] ∧
      (onNewIq { m_state := ConnectionState.Connected }
        { from_ := JID.mk "a@x.com/res", sipMessage := some sipMessage }
        IqContext.NoContext).2 =
        [Effect.iqAccept,
         Effect.sipInfoReceived "a@x.com/res"
          { visible := some true, host := some "10.0.0.7", port := some 50210,
            uniqname := some "u-1", key := some "k-1" }] :=
  (C12_sipInfo_round_trip {} { m_state := ConnectionState.Connected }
    (fun _ => some [("visible", QVariant.ofBool true), ("ip", QVariant.ofString "10.0.0.7"),
      ("port", QVariant.ofInt 50210), ("uniqname", QVariant.ofString "u-1"),
      ("key", QVariant.ofString "k-1")])
    "b@x.com/res" "json" _ (JID.mk "a@x.com/res") rfl rfl).1
    "10.0.0.7" 50210 "u-1" "k-1" rfl rfl rfl (by decide) (by decide) rfl rfl

/-- C13 at its failing input: a body that parses to a map with `visible` true and
only `ip`.  `sendMsg` builds and sends a message with port 0 and empty unique name and
key, and a Connected receiver surfaces it as a `SipInfo` with those values. -/
theorem C13_partial_map_is_sent :
    (sendMsg {}
      (fun _ => some [("visible", QVariant.ofBool true), ("ip", QVariant.ofString "10.0.0.7")])
      "b@x.com/res" "json").2 =
      [Effect.sendIqSet (JID.mk "b@x.com/res")
        (IqPayload.SipMessage
          { ip := "10.0.0.7", port := 0, uniqname := "", key := "", visible := true })
        IqContext.SipMessageSent] ∧
    (onNewIq { m_state := ConnectionState.Connected }
      { from_ := JID.mk "a@x.com/res"
        sipMessage := some
          { ip := "10.0.0.7", port := 0, uniqname := "", key := "", visible := true } }
      IqContext.NoContext).2 =
      [Effect.iqAccept,
       Effect.sipInfoReceived "a@x.com/res"
        { visible := some true, host := some "10.0.0.7", port := some 0,
          uniqname := some "", key := some "" }] := by
  decide

/-- C14, as stated, fails: a chat message with the body `hello`, which is no JSON map,
is answered with the automatic reply and announced with `msgReceived`. -/
theorem C14_undecodable_message_is_answered :
    (onNewMessage { m_state := ConnectionState.Connected } (fun _ => none)
      { from_ := JID.mk "a@x.com/res", body := "hello", subtype := MessageType.Chat }).2 =
      [Effect.sendMessage MessageType.Error (JID.mk "a@x.com/res") automaticResponse,
       Effect.msgReceived "a@x.com/res" "hello"] := by
  rfl

/-- C14, amended. In a Connected session, for every received message that is no
error message, has a non-empty body and does not decode to a valid `SipInfo`,
`onNewMessage` leaves the plugin state alone and emits no `sipInfoReceived`: its
effects are exactly one automatic reply of type Error sent to the sender, then
`msgReceived( from, body )`. -/
theorem C14_undecodable_message_reply (s : JabberPlugin) (parse : JsonParser)
    (message : Message)
    (hs : s.m_state = ConnectionState.Connected)
    (hbody : message.body.isEmpty = false)
    (htype : message.subtype ≠ MessageType.Error)
    (hinvalid : (SipInfo.fromJson parse message.body).isValid = false) :
    onNewMessage s parse message =
      (s, [Effect.sendMessage MessageType.Error message.from_ automaticResponse,
           Effect.msgReceived message.from_.full message.body]) ∧
    ∀ f info, Effect.sipInfoReceived f info ∉ (onNewMessage s parse message).2 := by
  have h : onNewMessage s parse message =
      (s, [Effect.sendMessage MessageType.Error message.from_ automaticResponse,
           Effect.msgReceived message.from_.full message.body]) := by
    simp [onNewMessage, hs, hbody, htype, hinvalid]
  rw [h]
  exact ⟨rfl, by simp⟩

/-- C14 at a concrete input: a JSON map with `visible` true and nothing else. -/
theorem C14_undecodable_message_reply_witness :
    onNewMessage { m_state := ConnectionState.Connected }
      (fun _ => some [("visible", QVariant.ofBool true)])
      { from_ := JID.mk "a@x.com/res", body := "json", subtype := MessageType.Normal } =
      ({ m_state := ConnectionState.Connected },
        [Effect.sendMessage MessageType.Error (JID.mk "a@x.com/res") automaticResponse,
         Effect.msgReceived "a@x.com/res" "json"]) :=
  (C14_undecodable_message_reply { m_state := ConnectionState.Connected }
    (fun _ => some [("visible", QVariant.ofBool true)])
    { from_ := JID.mk "a@x.com/res", body := "json", subtype := MessageType.Normal }
    rfl (by decide) (by decide) (by decide)).1

/-- C15. In a Connected session, a presence without error condition from an untracked
peer other than ourselves that carries a capability extension sends exactly one
discovery request to the peer, for `node # ver` and tagged RequestDisco, and nothing
else; when the reply from the peer, tagged RequestDisco, then lists the feature of
this application, the reply is accepted, `peerOnline` of the peer's full address is
emitted once, the peer is stored as Available, and after the event (and the avatar
signals, if any) one software-version request tagged RequestVersion goes to the peer. -/
theorem C15_caps_presence_then_disco_reply (s : JabberPlugin) (item : Option RosterItem)
    (presence : Presence) (caps : Capabilities) (iq : IQ) (discoInfo : DiscoInfo)
    (hs : s.m_state = ConnectionState.Connected)
    (hself : presence.from_ ≠ s.m_client.jid)
    (herr : presence.error = false)
    (hcaps : presence.caps = some caps)
    (hnew : s.m_peers.contains presence.from_ = false)
    (hfrom : iq.from_ = presence.from_)
    (hdisco : iq.discoInfo = some discoInfo)
    (hfeat : TOMAHAWK_FEATURE ∈ discoInfo.features) :
    onPresenceReceived s item presence =
      (s, [Effect.sendIq presence.from_ (IqPayload.DiscoInfo (caps.node ++ "#" ++ caps.ver))
            IqContext.RequestDisco]) ∧
    (∃ av, (∀ e ∈ av, ∃ x, e = Effect.avatarReceived x) ∧
      (onNewIq (onPresenceReceived s item presence).1 iq IqContext.RequestDisco).2 =
        [Effect.iqAccept, Effect.peerOnline presence.from_.full] ++ av ++
          [Effect.sendIq presence.from_ IqPayload.SoftwareVersion IqContext.RequestVersion]) ∧
    List.count (Effect.peerOnline presence.from_.full)
      (onNewIq (onPresenceReceived s item presence).1 iq IqContext.RequestDisco).2 = 1 ∧
    List.count (Effect.sendIq presence.from_ IqPayload.SoftwareVersion IqContext.RequestVersion)
      (onNewIq (onPresenceReceived s item presence).1 iq IqContext.RequestDisco).2 = 1 ∧
    (onNewIq (onPresenceReceived s item presence).1 iq
      IqContext.RequestDisco).1.m_peers.contains presence.from_ = true ∧
    (onNewIq (onPresenceReceived s item presence).1 iq
      IqContext.RequestDisco).1.m_peers.value presence.from_ = PresenceType.Available := by
  have h1 : onPresenceReceived s item presence =
      (s, [Effect.sendIq presence.from_ (IqPayload.DiscoInfo (caps.node ++ "#" ++ caps.ver))
            IqContext.RequestDisco]) := by
    simp [onPresenceReceived, hs, hself, herr, hcaps]
  have h2 : onNewIq s iq IqContext.RequestDisco =
      ((handlePeerStatus s presence.from_ PresenceType.Available).1,
        [Effect.iqAccept] ++ (handlePeerStatus s presence.from_ PresenceType.Available).2) := by
    simp [onNewIq, hs, hdisco, hfeat, hfrom]
  rw [h1]
  dsimp only
  rw [h2]
  dsimp only
  have hav : presenceMeansOnline PresenceType.Available = true := rfl
  rcases handlePeerStatus_effects s presence.from_ PresenceType.Available with
    ⟨hp, _, _⟩ | ⟨_, _, av, hav2, he⟩ | ⟨hc, _, _⟩
  · rw [hav] at hp; cases hp
  · rw [he, handlePeerStatus_state]
    refine ⟨rfl, ⟨av, hav2, by simp⟩, ?_, ?_, ?_, ?_⟩
    · have h0 : List.count (Effect.peerOnline presence.from_.full) av = 0 := by
        rw [List.count_eq_zero]
        intro hm
        obtain ⟨x, hx⟩ := hav2 _ hm
        cases hx
      simp [List.count_cons, List.count_append, h0]
    · have h0 : List.count
          (Effect.sendIq presence.from_ IqPayload.SoftwareVersion IqContext.RequestVersion) av
          = 0 := by
        rw [List.count_eq_zero]
        intro hm
        obtain ⟨x, hx⟩ := hav2 _ hm
        cases hx
      simp [List.count_cons, List.count_append, h0]
    · exact QHash.contains_insert_self _ _ _
    · exact QHash.value_insert_self _ _ _
  · rw [hnew] at hc; cases hc

/-- C15 at the scenario of the specification: presence of `a@x.com/res` with the
capability node `node`, version `1.0`, then the discovery reply with our feature. -/
theorem C15_caps_presence_then_disco_reply_witness :
    onPresenceReceived { m_state := ConnectionState.Connected } none
      { from_ := JID.mk "a@x.com/res", subtype := PresenceType.Available, error := false,
        caps := some { node := "node", ver := "1.0" } } =
      ({ m_state := ConnectionState.Connected },
        [Effect.sendIq (JID.mk "a@x.com/res") (IqPayload.DiscoInfo ("node" ++ "#" ++ "1.0"))
          IqContext.RequestDisco]) :=
  (C15_caps_presence_then_disco_reply { m_state := ConnectionState.Connected } none
    { from_ := JID.mk "a@x.com/res", subtype := PresenceType.Available, error := false,
      caps := some { node := "node", ver := "1.0" } }
    { node := "node", ver := "1.0" }
    { from_ := JID.mk "a@x.com/res", discoInfo := some { features := [TOMAHAWK_FEATURE] } }
    { features := [TOMAHAWK_FEATURE] }
    rfl (by decide) rfl rfl rfl rfl rfl (by simp)).1

/-- C16. In a Connected session, a presence without error condition and without
capability extension from a peer other than ourselves sends no request at all; a
peer tracked as online gets exactly one `peerOffline` and is stored as Unavailable; a
peer that was untracked, or tracked as not online, gets no event and no other effect. -/
theorem C16_presence_without_caps (s : JabberPlugin) (item : Option RosterItem)
    (presence : Presence)
    (hs : s.m_state = ConnectionState.Connected)
    (hself : presence.from_ ≠ s.m_client.jid)
    (herr : presence.error = false)
    (hcaps : presence.caps = none) :
    (∀ j payload context,
      Effect.sendIq j payload context ∉ (onPresenceReceived s item presence).2) ∧
    (trackedOnline s presence.from_ = true →
      (onPresenceReceived s item presence).2 = [Effect.peerOffline presence.from_.full] ∧
      (onPresenceReceived s item presence).1.m_peers.value presence.from_ =
        PresenceType.Unavailable) ∧
    (trackedOnline s presence.from_ = false → (onPresenceReceived s item presence).2 = []) := by
  have hdef : presenceMeansOnline (default : PresenceType) = false := rfl
  by_cases ht : trackedOnline s presence.from_ = true
  · have htc := ht
    simp only [trackedOnline, Bool.and_eq_true] at htc
    have h1 : onPresenceReceived s item presence =
        handlePeerStatus s presence.from_ PresenceType.Unavailable := by
      simp [onPresenceReceived, hs, hself, herr, hcaps, touchPeer, htc.1, htc.2]
    rw [h1, handlePeerStatus_unavailable, handlePeerStatus_state]
    simp [htc.1, htc.2, ht, QHash.value_insert_self]
  · have hf : trackedOnline s presence.from_ = false := by
      cases h : trackedOnline s presence.from_
      · rfl
      · exact absurd h ht
    have h1 : (onPresenceReceived s item presence).2 = [] := by
      cases hc : s.m_peers.contains presence.from_
      · simp [onPresenceReceived, hs, hself, herr, hcaps, touchPeer, hc,
          QHash.value_insert_self, hdef]
      · have hv : presenceMeansOnline (s.m_peers.value presence.from_) = false := by
          simpa [trackedOnline, hc] using hf
        simp [onPresenceReceived, hs, hself, herr, hcaps, touchPeer, hc, hv]
    rw [h1]
    simp [hf]

/-- C16 at a concrete input: a peer tracked as Available drops its capabilities. -/
theorem C16_presence_without_caps_witness :
    (onPresenceReceived
      { m_state := ConnectionState.Connected
        m_peers := [(JID.mk "a@x.com/res", PresenceType.Available)] }
      none
      { from_ := JID.mk "a@x.com/res", subtype := PresenceType.Available, error := false,
        caps := none }).2 = [Effect.peerOffline "a@x.com/res"] :=
  ((C16_presence_without_caps
    { m_state := ConnectionState.Connected
      m_peers := [(JID.mk "a@x.com/res", PresenceType.Available)] }
    none
    { from_ := JID.mk "a@x.com/res", subtype := PresenceType.Available, error := false,
      caps := none }
    rfl (by decide) rfl rfl).2.1 (by decide)).1

/-- C17. A presence that carries an error condition changes nothing and has no
effect, in every plugin state, from every sender, with or without capability
extension: the registry is as before, no event is emitted and nothing is sent. -/
theorem C17_error_presence_ignored (s : JabberPlugin) (item : Option RosterItem)
    (presence : Presence) (herr : presence.error = true) :
    onPresenceReceived s item presence = (s, []) := by
  unfold onPresenceReceived
  split_ifs <;> first | rfl | simp_all

/-- C17 at a concrete input: an error presence from a peer tracked as online. -/
theorem C17_error_presence_ignored_witness :
    onPresenceReceived
      { m_state := ConnectionState.Connected
        m_peers := [(JID.mk "a@x.com/res", PresenceType.Available)] }
      none
      { from_ := JID.mk "a@x.com/res", subtype := PresenceType.Error, error := true,
        caps := none } =
      ({ m_state := ConnectionState.Connected
         m_peers := [(JID.mk "a@x.com/res", PresenceType.Available)] }, []) :=
  C17_error_presence_ignored _ none
    { from_ := JID.mk "a@x.com/res", subtype := PresenceType.Error, error := true,
      caps := none } rfl

/-- C18. Outside a Connected session the four handlers do nothing: `onNewIq` for
every IQ and tag, `onNewMessage`, `onPresenceReceived` and `onSubscriptionReceived`
return the plugin state as it was and no effect. -/
theorem C18_handlers_idle_unless_connected (s : JabberPlugin)
    (hs : s.m_state ≠ ConnectionState.Connected)
    (iq : IQ) (context : IqContext) (parse : JsonParser) (message : Message)
    (item : Option RosterItem) (presence : Presence) :
    onNewIq s iq context = (s, []) ∧
    onNewMessage s parse message = (s, []) ∧
    onPresenceReceived s item presence = (s, []) ∧
    onSubscriptionReceived s item presence = (s, []) := by
  refine ⟨?_, ?_, ?_, ?_⟩
  · simp [onNewIq, hs]
  · simp [onNewMessage, hs]
  · simp [onPresenceReceived, hs]
  · simp [onSubscriptionReceived, hs]

/-- C18 at a concrete input: a discovery reply that arrives while Disconnecting. -/
theorem C18_handlers_idle_unless_connected_witness :
    onNewIq { m_state := ConnectionState.Disconnecting }
      { from_ := JID.mk "a@x.com/res", discoInfo := some { features := [TOMAHAWK_FEATURE] } }
      IqContext.RequestDisco = ({ m_state := ConnectionState.Disconnecting }, []) :=
  (C18_handlers_idle_unless_connected { m_state := ConnectionState.Disconnecting }
    (by decide)
    { from_ := JID.mk "a@x.com/res", discoInfo := some { features := [TOMAHAWK_FEATURE] } }
    IqContext.RequestDisco (fun _ => none)
    { from_ := JID.mk "a@x.com/res", body := "", subtype := MessageType.Chat }
    none
    { from_ := JID.mk "a@x.com/res", subtype := PresenceType.Available, error := false,
      caps := none }).1

/-- C19, as stated, fails: an IQ with a SipInfo message as payload that arrives on a
reply tagged RequestDisco has no effect, so no `sipInfoReceived` is emitted. -/
theorem C19_tagged_reply_with_sipMessage_is_dropped :
    (onNewIq { m_state := ConnectionState.Connected }
      { from_ := JID.mk "a@x.com/res"
        sipMessage := some (TomahawkSipMessage.visibleWith "10.0.0.7" 50210 "u-1" "k-1") }
      IqContext.RequestDisco).2 = [] := by
  decide

/-- C19, amended. In a Connected session, an incoming IQ whose payload is a SipInfo
message is accepted, decoded and emitted as `sipInfoReceived( from, info )` exactly
when its tag is none of RequestDisco, RequestVersion, RequestedDisco and
SipMessageSent (so for NoContext); under one of these four tags no `sipInfoReceived`
is emitted. -/
theorem C19_sipMessage_surfaced_only_without_tag (s : JabberPlugin) (iq : IQ)
    (sipMessage : TomahawkSipMessage) (context : IqContext)
    (hs : s.m_state = ConnectionState.Connected) (hsip : iq.sipMessage = some sipMessage) :
    (context ∉ [IqContext.RequestDisco, IqContext.RequestVersion, IqContext.RequestedDisco,
        IqContext.SipMessageSent] →
      onNewIq s iq context =
        (s, [Effect.iqAccept, Effect.sipInfoReceived iq.from_.full (sipInfoOf sipMessage)])) ∧
    (context ∈ [IqContext.RequestDisco, IqContext.RequestVersion, IqContext.RequestedDisco,
        IqContext.SipMessageSent] →
      ∀ f info, Effect.sipInfoReceived f info ∉ (onNewIq s iq context).2) := by
  constructor
  · intro hc
    simp only [List.mem_cons, List.mem_singleton, List.not_mem_nil, or_false, not_or] at hc
    simp [onNewIq, hs, hsip, hc.1, hc.2.1, hc.2.2.1, hc.2.2.2]
  · intro hc f info hm
    simp only [List.mem_cons, List.mem_singleton, List.not_mem_nil, or_false] at hc
    rcases hc with rfl | rfl | rfl | rfl
    · cases hd : iq.discoInfo with
      | none => simp [onNewIq, hs, hd] at hm
      | some discoInfo =>
        by_cases hfeat : TOMAHAWK_FEATURE ∈ discoInfo.features
        · have h2 : (onNewIq s iq IqContext.RequestDisco).2 =
              [Effect.iqAccept] ++ (handlePeerStatus s iq.from_ PresenceType.Available).2 := by
            simp [onNewIq, hs, hd, hfeat]
          rw [h2] at hm
          rcases handlePeerStatus_effects s iq.from_ PresenceType.Available with
            ⟨_, _, he⟩ | ⟨_, _, av, hav, he⟩ | ⟨_, _, he⟩
          · rw [he] at hm; simp at hm
          · rw [he] at hm
            simp only [List.mem_cons, List.mem_append, List.mem_singleton, List.not_mem_nil,
              or_false] at hm
            rcases hm with hm | hm | hm | hm
            · cases hm
            · cases hm
            · obtain ⟨x, hx⟩ := hav _ hm
              cases hx
            · cases hm
          · rw [he] at hm; simp at hm
        · simp [onNewIq, hs, hd, hfeat] at hm
    · cases hv : iq.softwareVersion <;> simp [onNewIq, hs, hv] at hm
    · simp [onNewIq, hs] at hm
    · simp [onNewIq, hs] at hm

/-- C19 at a concrete input: an unsolicited SipInfo message, without tag. -/
theorem C19_sipMessage_surfaced_only_without_tag_witness :
    onNewIq { m_state := ConnectionState.Connected }
      { from_ := JID.mk "a@x.com/res"
        sipMessage := some (TomahawkSipMessage.visibleWith "10.0.0.7" 50210 "u-1" "k-1") }
      IqContext.NoContext =
      ({ m_state := ConnectionState.Connected },
        [Effect.iqAccept,
         Effect.sipInfoReceived "a@x.com/res"
          (sipInfoOf (TomahawkSipMessage.visibleWith "10.0.0.7" 50210 "u-1" "k-1"))]) :=
  (C19_sipMessage_surfaced_only_without_tag { m_state := ConnectionState.Connected }
    { from_ := JID.mk "a@x.com/res"
      sipMessage := some (TomahawkSipMessage.visibleWith "10.0.0.7" 50210 "u-1" "k-1") }
    (TomahawkSipMessage.visibleWith "10.0.0.7" 50210 "u-1" "k-1") IqContext.NoContext
    rfl rfl).1 (by decide)

/-- C21. A disconnect by the user: `disconnectPlugin` with the transport connected
empties the registry, asks the transport to disconnect and moves to Disconnecting;
the `onDisconnect( User )` that follows (whatever the client then looks like) finds no
peer to visit, so neither call emits a `peerOffline`, for any peer and whatever the
registry held before, and the registry is empty afterwards. -/
theorem C21_user_disconnect_emits_no_peerOffline (s : JabberPlugin) (client : Client)
    (hc : s.m_client.isConnected = true) :
    (disconnectPlugin s).2 =
      [Effect.disconnectFromServer true, Effect.stateChanged ConnectionState.Disconnecting] ∧
    (disconnectPlugin s).1.m_peers = QHash.empty ∧
    (disconnectPlugin s).1.m_peers.keys = [] ∧
    (∀ f, Effect.peerOffline f ∉
      (disconnectPlugin s).2 ++
        (onDisconnect { (disconnectPlugin s).1 with m_client := client }
          DisconnectReason.User).2) ∧
    (onDisconnect { (disconnectPlugin s).1 with m_client := client }
      DisconnectReason.User).1.m_peers = QHash.empty := by
  have hd : disconnectPlugin s =
      ({ s with m_peers := QHash.empty, m_state := ConnectionState.Disconnecting },
        [Effect.disconnectFromServer true,
         Effect.stateChanged ConnectionState.Disconnecting]) := by
    simp [disconnectPlugin, hc]
  rw [hd]
  dsimp only
  refine ⟨rfl, rfl, rfl, ?_, ?_⟩
  · intro f hm
    rcases List.mem_append.1 hm with h | h
    · simp at h
    · rcases onDisconnect_mem _ _ _ h with ⟨c, m, he⟩ | he | he | ⟨k, hk, _⟩
      · cases he
      · cases he
      · cases he
      · simp [QHash.keys, QHash.empty] at hk
  · rw [onDisconnect_peers]
    rfl

/-- C21 at a concrete input: a Connected plugin with one peer online disconnects. -/
theorem C21_user_disconnect_emits_no_peerOffline_witness :
    (disconnectPlugin
      { m_state := ConnectionState.Connected
        m_client := { isConnected := true, jid := JID.mk "me@x.com/tomahawk1" }
        m_peers := [(JID.mk "a@x.com/res", PresenceType.Available)] }).2 ++
      (onDisconnect
        { (disconnectPlugin
            { m_state := ConnectionState.Connected
              m_client := { isConnected := true, jid := JID.mk "me@x.com/tomahawk1" }
              m_peers := [(JID.mk "a@x.com/res", PresenceType.Available)] }).1 with
          m_client := { isConnected := false, jid := JID.mk "me@x.com/tomahawk1" } }
        DisconnectReason.User).2 =
      [Effect.disconnectFromServer true,
       Effect.stateChanged ConnectionState.Disconnecting,
       Effect.stateChanged ConnectionState.Disconnected] ∧
    Effect.peerOffline "a@x.com/res" ∉
      (disconnectPlugin
        { m_state := ConnectionState.Connected
          m_client := { isConnected := true, jid := JID.mk "me@x.com/tomahawk1" }
          m_peers := [(JID.mk "a@x.com/res", PresenceType.Available)] }).2 ++
        (onDisconnect
          { (disconnectPlugin
              { m_state := ConnectionState.Connected
                m_client := { isConnected := true, jid := JID.mk "me@x.com/tomahawk1" }
                m_peers := [(JID.mk "a@x.com/res", PresenceType.Available)] }).1 with
            m_client := { isConnected := false, jid := JID.mk "me@x.com/tomahawk1" } }
          DisconnectReason.User).2 :=
  ⟨by decide,
    (C21_user_disconnect_emits_no_peerOffline
      { m_state := ConnectionState.Connected
        m_client := { isConnected := true, jid := JID.mk "me@x.com/tomahawk1" }
        m_peers := [(JID.mk "a@x.com/res", PresenceType.Available)] }
      { isConnected := false, jid := JID.mk "me@x.com/tomahawk1" } rfl).2.2.2.1
      "a@x.com/res"⟩

end Tomahawk
